import Mathlib

/-!
Verification of the Game of Life engine (game_of_life_engine.py).

The engine state is a rows x cols numpy int8 array together with the two
dimension attributes.  We embed the array as a list of rows, each row a list
of Int values, and model int8 arithmetic explicitly with a wrap function.
-/

namespace GameOfLife

/-- State of GameOfLifeEngine: attributes rows, cols and the 2-d array grid. -/
structure Engine where
  rows : Nat
  cols : Nat
  grid : List (List Int)
  deriving Repr, DecidableEq

/-- Well-formedness invariant of the numpy array: the list of rows has length
rows and every row has length cols. -/
def wf (e : Engine) : Prop :=
  e.grid.length = e.rows ∧ ∀ l ∈ e.grid, l.length = e.cols

instance (e : Engine) : Decidable (wf e) := by
  unfold wf; infer_instance

/-- Every cell of the array is 0 or 1. -/
def binaryGrid (g : List (List Int)) : Prop :=
  ∀ l ∈ g, ∀ v ∈ l, v = 0 ∨ v = 1

instance (g : List (List Int)) : Decidable (binaryGrid g) := by
  unfold binaryGrid; infer_instance

/-- Read entry (r, c) of a 2-d array (defaulting to 0, used only in bounds). -/
def gval (g : List (List Int)) (r c : Nat) : Int :=
  (g.getD r []).getD c 0

/-- Build a rows x cols array from an entry function. -/
def buildGrid (rows cols : Nat) (f : Nat → Nat → Int) : List (List Int) :=
  (List.range rows).map (fun r => (List.range cols).map (fun c => f r c))

/-- numpy int8 wraparound: values live in [-128, 127]. -/
def i8 (x : Int) : Int := (x + 128) % 256 - 128

/-- __init__: np.zeros((rows, cols), dtype=np.int8). -/
def mkEngine (rows cols : Nat) : Engine :=
  ⟨rows, cols, buildGrid rows cols (fun _ _ => 0)⟩

/-- get_cell: returns grid[row, col] when 0 <= row < rows and
0 <= col < cols, otherwise 0. -/
def getCell (e : Engine) (row col : Int) : Int :=
  if 0 ≤ row ∧ row < (e.rows : Int) ∧ 0 ≤ col ∧ col < (e.cols : Int) then
    gval e.grid row.toNat col.toNat
  else 0

/-- set_cell: stores state (as int8) at grid[row, col] when the index is in
bounds, otherwise does nothing. -/
def setCell (e : Engine) (row col state : Int) : Engine :=
  if 0 ≤ row ∧ row < (e.rows : Int) ∧ 0 ≤ col ∧ col < (e.cols : Int) then
    { e with grid :=
        e.grid.set row.toNat ((e.grid.getD row.toNat []).set col.toNat (i8 state)) }
  else e

/-- clear: grid.fill(0) — every entry becomes 0 in place, shape kept. -/
def clear (e : Engine) : Engine :=
  { e with grid := e.grid.map (fun row => row.map (fun _ => 0)) }

/-- count_neighbors, entry (r, c) of the result.  Each numpy statement
`neighbors[slice] += grid[slice2]` adds, for the cells (r, c) selected by the
target slice, the grid entry at the shifted index; the additions are int8
additions.  The eight statements, in source order:
neighbors[:-1,:]  += grid[1:,:];  neighbors[1:,:]   += grid[:-1,:];
neighbors[:,:-1]  += grid[:,1:];  neighbors[:,1:]   += grid[:,:-1];
neighbors[:-1,:-1]+= grid[1:,1:]; neighbors[1:,1:]  += grid[:-1,:-1];
neighbors[:-1,1:] += grid[1:,:-1];neighbors[1:,:-1] += grid[:-1,1:]. -/
def countNeighborsAt (g : List (List Int)) (rows cols r c : Nat) : Int :=
  let n1 := i8 (0 + (if r + 1 < rows then gval g (r + 1) c else 0))
  let n2 := i8 (n1 + (if 1 ≤ r then gval g (r - 1) c else 0))
  let n3 := i8 (n2 + (if c + 1 < cols then gval g r (c + 1) else 0))
  let n4 := i8 (n3 + (if 1 ≤ c then gval g r (c - 1) else 0))
  let n5 := i8 (n4 + (if r + 1 < rows ∧ c + 1 < cols then gval g (r + 1) (c + 1) else 0))
  let n6 := i8 (n5 + (if 1 ≤ r ∧ 1 ≤ c then gval g (r - 1) (c - 1) else 0))
  let n7 := i8 (n6 + (if r + 1 < rows ∧ 1 ≤ c then gval g (r + 1) (c - 1) else 0))
  let n8 := i8 (n7 + (if 1 ≤ r ∧ c + 1 < cols then gval g (r - 1) (c + 1) else 0))
  n8

/-- count_neighbors: the full neighbor-count array. -/
def countNeighbors (e : Engine) : List (List Int) :=
  buildGrid e.rows e.cols (fun r c => countNeighborsAt e.grid e.rows e.cols r c)

/-- step: survive = (grid == 1) & ((n == 2) | (n == 3));
birth = (grid == 0) & (n == 3); grid = (survive | birth).astype(int8). -/
def step (e : Engine) : Engine :=
  let ns := countNeighbors e
  { e with grid :=
      buildGrid e.rows e.cols (fun r c =>
        if (gval e.grid r c = 1 ∧ (gval ns r c = 2 ∨ gval ns r c = 3)) ∨
           (gval e.grid r c = 0 ∧ gval ns r c = 3) then 1 else 0) }

/-- get_grid_copy at the value level: the current contents of the array. -/
def snapshot (e : Engine) : List (List Int) := e.grid

example :
    step ⟨3, 3, [[0, 0, 0], [1, 1, 1], [0, 0, 0]]⟩ =
      ⟨3, 3, [[0, 1, 0], [0, 1, 0], [0, 1, 0]]⟩ := by decide

example : step (mkEngine 1 1) = ⟨1, 1, [[0]]⟩ := by decide

example : step ⟨1, 1, [[1]]⟩ = ⟨1, 1, [[0]]⟩ := by decide

/-- Value of one neighbor offset, written from the wording of the spec: the
cell value at the offset, or 0 when the offset falls outside
[0,rows) x [0,cols). -/
def offTerm (g : List (List Int)) (rows cols r c : Nat) (d : Int × Int) : Int :=
  if 0 ≤ (r : Int) + d.1 ∧ (r : Int) + d.1 < (rows : Int) ∧
     0 ≤ (c : Int) + d.2 ∧ (c : Int) + d.2 < (cols : Int) then
    gval g ((r : Int) + d.1).toNat ((c : Int) + d.2).toNat
  else 0

/-- Written from the wording of the spec: the sum of the live/dead values of
all 8 neighbor offsets (-1,-1),(-1,0),(-1,1),(0,-1),(0,1),(1,-1),(1,0),(1,1),
out-of-bounds offsets contributing 0. -/
def neighborSumSpec (g : List (List Int)) (rows cols r c : Nat) : Int :=
  offTerm g rows cols r c (-1, -1) + offTerm g rows cols r c (-1, 0) +
  offTerm g rows cols r c (-1, 1) + offTerm g rows cols r c (0, -1) +
  offTerm g rows cols r c (0, 1) + offTerm g rows cols r c (1, -1) +
  offTerm g rows cols r c (1, 0) + offTerm g rows cols r c (1, 1)

lemma gval_mem {g : List (List Int)} (hb : binaryGrid g) (r c : Nat) :
    gval g r c = 0 ∨ gval g r c = 1 := by
  unfold gval
  by_cases hr : r < g.length
  · rw [List.getD_eq_getElem?_getD g r, List.getElem?_eq_getElem hr, Option.getD_some]
    by_cases hc : c < g[r].length
    · rw [List.getD_eq_getElem?_getD, List.getElem?_eq_getElem hc, Option.getD_some]
      exact hb g[r] (List.getElem_mem hr) _ (List.getElem_mem hc)
    · rw [List.getD_eq_getElem?_getD, List.getElem?_eq_none (by omega), Option.getD_none]
      left; rfl
  · rw [List.getD_eq_getElem?_getD g r, List.getElem?_eq_none (by omega), Option.getD_none]
    simp

lemma gval_buildGrid (rows cols : Nat) (f : Nat → Nat → Int) {r c : Nat}
    (hr : r < rows) (hc : c < cols) :
    gval (buildGrid rows cols f) r c = f r c := by
  simp [gval, buildGrid, List.getD_eq_getElem?_getD,
    List.getElem?_range hr, List.getElem?_range hc]

lemma i8_chain (t1 t2 t3 t4 t5 t6 t7 t8 : Int)
    (h1 : 0 ≤ t1 ∧ t1 ≤ 1) (h2 : 0 ≤ t2 ∧ t2 ≤ 1) (h3 : 0 ≤ t3 ∧ t3 ≤ 1)
    (h4 : 0 ≤ t4 ∧ t4 ≤ 1) (h5 : 0 ≤ t5 ∧ t5 ≤ 1) (h6 : 0 ≤ t6 ∧ t6 ≤ 1)
    (h7 : 0 ≤ t7 ∧ t7 ≤ 1) (h8 : 0 ≤ t8 ∧ t8 ≤ 1) :
    i8 (i8 (i8 (i8 (i8 (i8 (i8 (i8 (0 + t1) + t2) + t3) + t4) + t5) + t6) + t7) + t8)
      = t1 + t2 + t3 + t4 + t5 + t6 + t7 + t8 := by
  unfold i8; omega

lemma guarded_bounds {g : List (List Int)} (hb : binaryGrid g) (p : Prop)
    [Decidable p] (a b : Nat) :
    0 ≤ (if p then gval g a b else 0) ∧ (if p then gval g a b else 0) ≤ 1 := by
  split
  · rcases gval_mem hb a b with h | h <;> omega
  · omega

lemma countNeighborsAt_eq_sum {g : List (List Int)} (hb : binaryGrid g)
    (rows cols r c : Nat) :
    countNeighborsAt g rows cols r c =
      (if r + 1 < rows then gval g (r + 1) c else 0) +
      (if 1 ≤ r then gval g (r - 1) c else 0) +
      (if c + 1 < cols then gval g r (c + 1) else 0) +
      (if 1 ≤ c then gval g r (c - 1) else 0) +
      (if r + 1 < rows ∧ c + 1 < cols then gval g (r + 1) (c + 1) else 0) +
      (if 1 ≤ r ∧ 1 ≤ c then gval g (r - 1) (c - 1) else 0) +
      (if r + 1 < rows ∧ 1 ≤ c then gval g (r + 1) (c - 1) else 0) +
      (if 1 ≤ r ∧ c + 1 < cols then gval g (r - 1) (c + 1) else 0) := by
  simp only [countNeighborsAt]
  exact i8_chain _ _ _ _ _ _ _ _
    (guarded_bounds hb _ _ _) (guarded_bounds hb _ _ _) (guarded_bounds hb _ _ _)
    (guarded_bounds hb _ _ _) (guarded_bounds hb _ _ _) (guarded_bounds hb _ _ _)
    (guarded_bounds hb _ _ _) (guarded_bounds hb _ _ _)

lemma offTerm_eq_guard (g : List (List Int)) {rows cols r c : Nat}
    (dr dc : Int) (u v : Nat)
    (hu : (r : Int) + dr = (u : Int) ∨ (r : Int) + dr < 0)
    (hv : (c : Int) + dc = (v : Int) ∨ (c : Int) + dc < 0)
    (p : Prop) [Decidable p]
    (hp : p ↔ (0 ≤ (r : Int) + dr ∧ (r : Int) + dr < (rows : Int) ∧
               0 ≤ (c : Int) + dc ∧ (c : Int) + dc < (cols : Int))) :
    offTerm g rows cols r c (dr, dc) = if p then gval g u v else 0 := by
  unfold offTerm
  by_cases h : p
  · rw [if_pos (hp.mp h), if_pos h]
    rcases hp.mp h with ⟨h1, h2, h3, h4⟩
    congr 1 <;> omega
  · rw [if_neg (fun hcon => h (hp.mpr hcon)), if_neg h]

lemma neighborSumSpec_eq_guards {g : List (List Int)} {rows cols r c : Nat}
    (hr : r < rows) (hc : c < cols) :
    neighborSumSpec g rows cols r c =
      (if r + 1 < rows then gval g (r + 1) c else 0) +
      (if 1 ≤ r then gval g (r - 1) c else 0) +
      (if c + 1 < cols then gval g r (c + 1) else 0) +
      (if 1 ≤ c then gval g r (c - 1) else 0) +
      (if r + 1 < rows ∧ c + 1 < cols then gval g (r + 1) (c + 1) else 0) +
      (if 1 ≤ r ∧ 1 ≤ c then gval g (r - 1) (c - 1) else 0) +
      (if r + 1 < rows ∧ 1 ≤ c then gval g (r + 1) (c - 1) else 0) +
      (if 1 ≤ r ∧ c + 1 < cols then gval g (r - 1) (c + 1) else 0) := by
  unfold neighborSumSpec
  rw [offTerm_eq_guard g (-1) (-1) (r - 1) (c - 1) (by omega) (by omega)
      (1 ≤ r ∧ 1 ≤ c) (by constructor <;> intro h <;> omega)]
  rw [offTerm_eq_guard g (-1) 0 (r - 1) c (by omega) (by omega)
      (1 ≤ r) (by constructor <;> intro h <;> omega)]
  rw [offTerm_eq_guard g (-1) 1 (r - 1) (c + 1) (by omega) (by omega)
      (1 ≤ r ∧ c + 1 < cols) (by constructor <;> intro h <;> omega)]
  rw [offTerm_eq_guard g 0 (-1) r (c - 1) (by omega) (by omega)
      (1 ≤ c) (by constructor <;> intro h <;> omega)]
  rw [offTerm_eq_guard g 0 1 r (c + 1) (by omega) (by omega)
      (c + 1 < cols) (by constructor <;> intro h <;> omega)]
  rw [offTerm_eq_guard g 1 (-1) (r + 1) (c - 1) (by omega) (by omega)
      (r + 1 < rows ∧ 1 ≤ c) (by constructor <;> intro h <;> omega)]
  rw [offTerm_eq_guard g 1 0 (r + 1) c (by omega) (by omega)
      (r + 1 < rows) (by constructor <;> intro h <;> omega)]
  rw [offTerm_eq_guard g 1 1 (r + 1) (c + 1) (by omega) (by omega)
      (r + 1 < rows ∧ c + 1 < cols) (by constructor <;> intro h <;> omega)]
  ring

lemma countNeighborsAt_eq_spec {g : List (List Int)} (hb : binaryGrid g)
    {rows cols r c : Nat} (hr : r < rows) (hc : c < cols) :
    countNeighborsAt g rows cols r c = neighborSumSpec g rows cols r c := by
  rw [countNeighborsAt_eq_sum hb, neighborSumSpec_eq_guards hr hc]

lemma neighborSumSpec_bounds {g : List (List Int)} (hb : binaryGrid g)
    (rows cols r c : Nat) :
    0 ≤ neighborSumSpec g rows cols r c ∧ neighborSumSpec g rows cols r c ≤ 8 := by
  have key : ∀ d : Int × Int,
      0 ≤ offTerm g rows cols r c d ∧ offTerm g rows cols r c d ≤ 1 := by
    intro d
    unfold offTerm
    split
    · rcases gval_mem hb ((r : Int) + d.1).toNat ((c : Int) + d.2).toNat with h | h <;> omega
    · omega
  unfold neighborSumSpec
  have k1 := key (-1, -1); have k2 := key (-1, 0); have k3 := key (-1, 1)
  have k4 := key (0, -1); have k5 := key (0, 1); have k6 := key (1, -1)
  have k7 := key (1, 0); have k8 := key (1, 1)
  omega

lemma buildGrid_length (rows cols : Nat) (f : Nat → Nat → Int) :
    (buildGrid rows cols f).length = rows := by
  simp [buildGrid]

lemma buildGrid_row_length (rows cols : Nat) (f : Nat → Nat → Int) :
    ∀ l ∈ buildGrid rows cols f, l.length = cols := by
  intro l hl
  simp only [buildGrid, List.mem_map] at hl
  obtain ⟨a, _, rfl⟩ := hl
  simp

lemma wf_buildGrid (e : Engine) (f : Nat → Nat → Int)
    (h : e.grid = buildGrid e.rows e.cols f) : wf e :=
  ⟨by rw [h]; exact buildGrid_length _ _ _,
   by rw [h]; exact buildGrid_row_length _ _ _⟩

lemma getCell_eq_gval (e : Engine) (r c : Nat) (hr : r < e.rows) (hc : c < e.cols) :
    getCell e r c = gval e.grid r c := by
  unfold getCell
  rw [if_pos (by omega : 0 ≤ (r : Int) ∧ (r : Int) < (e.rows : Int) ∧
      0 ≤ (c : Int) ∧ (c : Int) < (e.cols : Int))]
  simp

lemma gval_step (e : Engine) {r c : Nat} (hr : r < e.rows) (hc : c < e.cols) :
    gval (step e).grid r c =
      if (gval e.grid r c = 1 ∧
            (countNeighborsAt e.grid e.rows e.cols r c = 2 ∨
             countNeighborsAt e.grid e.rows e.cols r c = 3)) ∨
         (gval e.grid r c = 0 ∧ countNeighborsAt e.grid e.rows e.cols r c = 3) then
        1
      else 0 := by
  simp only [step, countNeighbors]
  rw [gval_buildGrid _ _ _ hr hc]
  have hn : gval (buildGrid e.rows e.cols fun a b => countNeighborsAt e.grid e.rows e.cols a b) r c
      = countNeighborsAt e.grid e.rows e.cols r c := gval_buildGrid _ _ _ hr hc
  simp only [hn]

/-- C1: for a binary grid, one step keeps the dimensions and makes cell (r,c)
live exactly when the old cell was live with old neighbor count 2 or 3, or
dead with old neighbor count exactly 3; all counts are taken from the
pre-step grid. -/
theorem claim1_step_rule (e : Engine) (_hw : wf e) (hb : binaryGrid e.grid) :
    (step e).rows = e.rows ∧ (step e).cols = e.cols ∧ wf (step e) ∧
    ∀ r c : Nat, r < e.rows → c < e.cols →
      (getCell (step e) r c = 1 ↔
        ((getCell e r c = 1 ∧
            (neighborSumSpec e.grid e.rows e.cols r c = 2 ∨
             neighborSumSpec e.grid e.rows e.cols r c = 3)) ∨
         (getCell e r c = 0 ∧ neighborSumSpec e.grid e.rows e.cols r c = 3))) := by
  refine ⟨rfl, rfl, wf_buildGrid _ _ rfl, ?_⟩
  intro r c hr hc
  rw [getCell_eq_gval (step e) r c hr hc, getCell_eq_gval e r c hr hc]
  rw [gval_step e hr hc, countNeighborsAt_eq_spec hb hr hc]
  by_cases h : (gval e.grid r c = 1 ∧
      (neighborSumSpec e.grid e.rows e.cols r c = 2 ∨
       neighborSumSpec e.grid e.rows e.cols r c = 3)) ∨
      (gval e.grid r c = 0 ∧ neighborSumSpec e.grid e.rows e.cols r c = 3)
  · simp [h]
  · simp [h]

/-- test grid: a 3 x 3 horizontal blinker. -/
def sampleE : Engine := ⟨3, 3, [[0, 0, 0], [1, 1, 1], [0, 0, 0]]⟩

theorem claim1_step_rule_witness :
    wf sampleE ∧ binaryGrid sampleE.grid ∧ 1 < sampleE.rows ∧ 1 < sampleE.cols ∧
    (getCell (step sampleE) 1 1 = 1 ↔
      ((getCell sampleE 1 1 = 1 ∧
          (neighborSumSpec sampleE.grid sampleE.rows sampleE.cols 1 1 = 2 ∨
           neighborSumSpec sampleE.grid sampleE.rows sampleE.cols 1 1 = 3)) ∨
       (getCell sampleE 1 1 = 0 ∧
          neighborSumSpec sampleE.grid sampleE.rows sampleE.cols 1 1 = 3))) :=
  ⟨by decide, by decide, by decide, by decide,
   (claim1_step_rule sampleE (by decide) (by decide)).2.2.2 1 1 (by decide) (by decide)⟩

/-- C2: for a binary grid, the neighbor-count array holds at every in-bounds
(r,c) exactly the sum of the cell values at the 8 offsets, offsets outside
the grid contributing 0, and every count lies in [0, 8]. -/
theorem claim2_count_neighbors (e : Engine) (hb : binaryGrid e.grid)
    (r c : Nat) (hr : r < e.rows) (hc : c < e.cols) :
    gval (countNeighbors e) r c = neighborSumSpec e.grid e.rows e.cols r c ∧
    0 ≤ gval (countNeighbors e) r c ∧ gval (countNeighbors e) r c ≤ 8 := by
  have h1 : gval (countNeighbors e) r c = countNeighborsAt e.grid e.rows e.cols r c := by
    simp only [countNeighbors]
    exact gval_buildGrid _ _ _ hr hc
  rw [h1, countNeighborsAt_eq_spec hb hr hc]
  exact ⟨rfl, (neighborSumSpec_bounds hb _ _ _ _).1, (neighborSumSpec_bounds hb _ _ _ _).2⟩

theorem claim2_count_neighbors_witness :
    binaryGrid sampleE.grid ∧ 0 < sampleE.rows ∧ 1 < sampleE.cols ∧
    (gval (countNeighbors sampleE) 0 1 =
        neighborSumSpec sampleE.grid sampleE.rows sampleE.cols 0 1 ∧
     0 ≤ gval (countNeighbors sampleE) 0 1 ∧ gval (countNeighbors sampleE) 0 1 ≤ 8) :=
  ⟨by decide, by decide, by decide,
   claim2_count_neighbors sampleE (by decide) 0 1 (by decide) (by decide)⟩

lemma getD_outer_set_ne (g : List (List Int)) {i j : Nat} (x : List Int)
    (h : i ≠ j) : (g.set i x).getD j [] = g.getD j [] := by
  rw [List.getD_eq_getElem?_getD, List.getD_eq_getElem?_getD,
    List.getElem?_set_ne h]

lemma getD_inner_set_ne (l : List Int) {i j : Nat} (x : Int)
    (h : i ≠ j) : (l.set i x).getD j 0 = l.getD j 0 := by
  rw [List.getD_eq_getElem?_getD, List.getD_eq_getElem?_getD,
    List.getElem?_set_ne h]

/-- C6: get at an out-of-bounds index returns 0 and set there is a silent
no-op leaving the state unchanged; an in-bounds set keeps the dimensions and
changes no cell other than (row, col). -/
theorem claim6_bounds_safety (e : Engine) (hw : wf e) (row col state : Int) :
    (¬ (0 ≤ row ∧ row < (e.rows : Int) ∧ 0 ≤ col ∧ col < (e.cols : Int)) →
      getCell e row col = 0 ∧ setCell e row col state = e) ∧
    ((0 ≤ row ∧ row < (e.rows : Int) ∧ 0 ≤ col ∧ col < (e.cols : Int)) →
      (setCell e row col state).rows = e.rows ∧
      (setCell e row col state).cols = e.cols ∧
      ∀ a b : Int, ¬ (a = row ∧ b = col) →
        getCell (setCell e row col state) a b = getCell e a b) := by
  constructor
  · intro hout
    exact ⟨by unfold getCell; rw [if_neg hout], by unfold setCell; rw [if_neg hout]⟩
  · intro hin
    have hset : setCell e row col state =
        { e with grid := (e.grid.set row.toNat
            ((e.grid.getD row.toNat []).set col.toNat (i8 state))) } := by
      unfold setCell; rw [if_pos hin]
    rw [hset]
    refine ⟨rfl, rfl, ?_⟩
    intro a b hab
    by_cases hbnd : 0 ≤ a ∧ a < (e.rows : Int) ∧ 0 ≤ b ∧ b < (e.cols : Int)
    · unfold getCell
      rw [if_pos hbnd, if_pos hbnd]
      unfold gval
      dsimp only
      by_cases hra : row.toNat = a.toNat
      · have hbne : col.toNat ≠ b.toNat := by omega
        have hlen : row.toNat < e.grid.length := by
          rw [hw.1]; omega
        rw [← hra]
        rw [List.getD_eq_getElem?_getD (e.grid.set _ _) row.toNat,
          List.getElem?_set_self hlen, Option.getD_some]
        exact getD_inner_set_ne _ _ hbne
      · rw [getD_outer_set_ne _ _ hra]
    · unfold getCell
      rw [if_neg hbnd, if_neg hbnd]

theorem claim6_bounds_safety_witness :
    wf sampleE ∧
    (¬ (0 ≤ (5 : Int) ∧ (5 : Int) < (sampleE.rows : Int) ∧
        0 ≤ (-1 : Int) ∧ (-1 : Int) < (sampleE.cols : Int)) →
      getCell sampleE 5 (-1) = 0 ∧ setCell sampleE 5 (-1) 1 = sampleE) ∧
    ((0 ≤ (1 : Int) ∧ (1 : Int) < (sampleE.rows : Int) ∧
      0 ≤ (2 : Int) ∧ (2 : Int) < (sampleE.cols : Int)) →
      (setCell sampleE 1 2 0).rows = sampleE.rows ∧
      (setCell sampleE 1 2 0).cols = sampleE.cols ∧
      ∀ a b : Int, ¬ (a = 1 ∧ b = 2) →
        getCell (setCell sampleE 1 2 0) a b = getCell sampleE a b) :=
  ⟨by decide, (claim6_bounds_safety sampleE (by decide) 5 (-1) 1).1,
   (claim6_bounds_safety sampleE (by decide) 1 2 0).2⟩

lemma countNeighborsAt_one_one (g : List (List Int)) :
    countNeighborsAt g 1 1 0 0 = 0 := by
  simp [countNeighborsAt, i8]

/-- C7: step is total over valid grids: it preserves the dimensions and
well-formedness (a 0 x 0 grid yields a 0 x 0 grid), on a 1 x 1 grid the
neighbor count of the single cell is 0, and a single live cell on a 1 x 1
grid is dead after one step. -/
theorem claim7_step_total (e : Engine) (_hw : wf e) :
    ((step e).rows = e.rows ∧ (step e).cols = e.cols ∧ wf (step e)) ∧
    (e.rows = 0 → (step e).grid = []) ∧
    (e.rows = 1 → e.cols = 1 → gval (countNeighbors e) 0 0 = 0) ∧
    step ⟨1, 1, [[1]]⟩ = ⟨1, 1, [[0]]⟩ := by
  refine ⟨⟨rfl, rfl, wf_buildGrid _ _ rfl⟩, ?_, ?_, by decide⟩
  · intro h0
    show buildGrid e.rows e.cols _ = []
    rw [h0]
    rfl
  · intro h1 h2
    show gval (buildGrid e.rows e.cols _) 0 0 = 0
    rw [gval_buildGrid _ _ _ (by omega) (by omega), h1, h2]
    exact countNeighborsAt_one_one e.grid

theorem claim7_step_total_witness :
    wf (Engine.mk 1 1 [[1]]) ∧
    ((step (Engine.mk 1 1 [[1]])).rows = 1 ∧ (step (Engine.mk 1 1 [[1]])).cols = 1 ∧
      wf (step (Engine.mk 1 1 [[1]]))) ∧
    gval (countNeighbors (Engine.mk 1 1 [[1]])) 0 0 = 0 ∧
    step ⟨1, 1, [[1]]⟩ = ⟨1, 1, [[0]]⟩ :=
  ⟨by decide, (claim7_step_total (Engine.mk 1 1 [[1]]) (by decide)).1,
   (claim7_step_total (Engine.mk 1 1 [[1]]) (by decide)).2.2.1 rfl rfl,
   (claim7_step_total (Engine.mk 1 1 [[1]]) (by decide)).2.2.2⟩

/-- The whitespace characters stripped by str.strip (space, tab, newline,
carriage return, vertical tab, form feed). -/
def isPySpace (ch : Char) : Bool :=
  ch = ' ' || ch = '\t' || ch = '\n' || ch = '\r' ||
  ch = Char.ofNat 11 || ch = Char.ofNat 12

/-- content.strip(): remove leading and trailing whitespace. -/
def pyStrip (s : List Char) : List Char :=
  ((s.dropWhile isPySpace).reverse.dropWhile isPySpace).reverse

/-- split on the newline character; on the empty string this gives one empty
line, exactly like str.split. -/
def splitNl : List Char → List (List Char)
  | [] => [[]]
  | ch :: cs =>
    if ch = '\n' then [] :: splitNl cs
    else
      match splitNl cs with
      | [] => [[ch]]
      | l :: ls => (ch :: l) :: ls

/-- The line list the loader works on: content.strip().split(newline). -/
def linesOf (content : List Char) : List (List Char) :=
  splitNl (pyStrip content)

/-- The ValueError raised by load_pattern_from_file, with the data the
message carries: Empty file / Line i+1 has length len, expected n /
Invalid character ch at position (i, j). -/
inductive LoadError where
  | emptyFile : LoadError
  | badLength (lineNo len expected : Nat) : LoadError
  | badChar (ch : Char) (i j : Nat) : LoadError
  deriving Repr, DecidableEq

/-- The length-validation loop: first line (0-based index counted from i)
whose length differs from n gives the error naming line i+1. -/
def checkLengths (n : Nat) : Nat → List (List Char) → Option LoadError
  | _, [] => none
  | i, l :: ls =>
    if l.length ≠ n then some (.badLength (i + 1) l.length n)
    else checkLengths n (i + 1) ls

/-- Parsing one line i starting at column j: digit 1 gives cell 1, digit 0
gives cell 0 (the fresh zero array keeps 0), any other character raises
naming (i, j). -/
def parseRow (i : Nat) : Nat → List Char → Except LoadError (List Int)
  | _, [] => .ok []
  | j, ch :: cs =>
    if ch = '1' then (parseRow i (j + 1) cs).map (fun l => 1 :: l)
    else if ch = '0' then (parseRow i (j + 1) cs).map (fun l => 0 :: l)
    else .error (.badChar ch i j)

/-- Parsing all lines in order starting at line index i. -/
def parseRows (i : Nat) : List (List Char) → Except LoadError (List (List Int))
  | [] => .ok []
  | l :: ls =>
    match parseRow i 0 l with
    | .error err => .error err
    | .ok row => (parseRows (i + 1) ls).map (fun g => row :: g)

/-- The validation and parsing of load_pattern_from_file on the split lines:
empty line list (unreachable after split), then the length loop, then the
character loop; on success the new n x n grid. -/
def loadLines (ls : List (List Char)) : Except LoadError (Nat × List (List Int)) :=
  if ls = [] then .error .emptyFile
  else
    match checkLengths ls.length 0 ls with
    | some err => .error err
    | none =>
      match parseRows 0 ls with
      | .error err => .error err
      | .ok g => .ok (ls.length, g)

/-- load_pattern_from_file on file content: grid, rows and cols are replaced
only after all validation succeeded; on a raised error the state is the old
one. -/
def loadPattern (e : Engine) (content : List Char) : Engine × Option LoadError :=
  match loadLines (linesOf content) with
  | .error err => (e, some err)
  | .ok (n, g) => (⟨n, n, g⟩, none)

/-- Cell value a pattern character denotes. -/
def bitOfChar (ch : Char) : Int := if ch = '1' then 1 else 0

/-- The text whose lines are the given ones, separated by newlines. -/
def joinLines : List (List Char) → List Char
  | [] => []
  | [l] => l
  | l :: ls => l ++ '\n' :: joinLines ls

example : linesOf [] = [[]] := by decide

example : loadLines [[]] = .error (.badLength 1 0 1) := rfl

example :
    loadPattern (mkEngine 2 2) ('0' :: '1' :: '\n' :: '1' :: 'x' ::[]) =
      (mkEngine 2 2, some (.badChar 'x' 1 1)) := by decide

example :
    loadPattern (mkEngine 2 2) ('0' :: '1' :: '\n' :: '1' :: '0' ::[]) =
      (⟨2, 2, [[0, 1], [1, 0]]⟩, none) := by decide

lemma head?_dropWhile_false (p : Char → Bool) (l : List Char) {ch : Char}
    (h : (l.dropWhile p).head? = some ch) : p ch = false := by
  have hh := List.head?_dropWhile_not p l
  rw [h] at hh
  exact hh

lemma dropWhile_eq_self_of_head (p : Char → Bool) (l : List Char)
    (h : ∀ ch, l.head? = some ch → p ch = false) : l.dropWhile p = l := by
  cases l with
  | nil => rfl
  | cons a l => exact List.dropWhile_cons_of_neg (by simp [h a rfl])

lemma pyStrip_head (s : List Char) {ch : Char}
    (hch : (pyStrip s).head? = some ch) : isPySpace ch = false := by
  unfold pyStrip at hch
  rw [List.head?_reverse] at hch
  obtain ⟨w, hw⟩ :=
    List.dropWhile_suffix (l := (s.dropWhile isPySpace).reverse) isPySpace
  have hlast : (s.dropWhile isPySpace).reverse.getLast? = some ch := by
    rw [← hw, List.getLast?_append, hch]
    rfl
  rw [List.getLast?_reverse] at hlast
  exact head?_dropWhile_false isPySpace s hlast

lemma pyStrip_getLast (s : List Char) {ch : Char}
    (hch : (pyStrip s).getLast? = some ch) : isPySpace ch = false := by
  unfold pyStrip at hch
  rw [List.getLast?_reverse] at hch
  exact head?_dropWhile_false isPySpace _ hch

lemma pyStrip_eq_self (s : List Char)
    (h1 : ∀ ch, s.head? = some ch → isPySpace ch = false)
    (h2 : ∀ ch, s.getLast? = some ch → isPySpace ch = false) :
    pyStrip s = s := by
  unfold pyStrip
  rw [dropWhile_eq_self_of_head _ _ h1]
  rw [dropWhile_eq_self_of_head _ _ (by
    intro ch hch
    rw [List.head?_reverse] at hch
    exact h2 ch hch)]
  exact List.reverse_reverse s

lemma pyStrip_idem (s : List Char) : pyStrip (pyStrip s) = pyStrip s :=
  pyStrip_eq_self (pyStrip s) (fun _ h => pyStrip_head s h)
    (fun _ h => pyStrip_getLast s h)

lemma splitNl_ne_nil (s : List Char) : splitNl s ≠ [] := by
  cases s with
  | nil => simp [splitNl]
  | cons ch cs =>
    simp only [splitNl]
    split
    · simp
    · split <;> simp

lemma splitNl_no_newline (l : List Char) (h : '\n' ∉ l) : splitNl l = [l] := by
  induction l with
  | nil => rfl
  | cons ch cs ih =>
    simp only [splitNl]
    rw [if_neg (by intro h0; exact h (h0 ▸ List.mem_cons_self ch cs))]
    rw [ih (fun hm => h (List.mem_cons_of_mem ch hm))]

lemma splitNl_append (l rest : List Char) (h : '\n' ∉ l) :
    splitNl (l ++ '\n' :: rest) = l :: splitNl rest := by
  induction l with
  | nil => simp [splitNl]
  | cons ch cs ih =>
    simp only [List.cons_append, splitNl]
    rw [if_neg (by intro h0; exact h (h0 ▸ List.mem_cons_self ch cs))]
    simp only [List.append_eq]
    rw [ih (fun hm => h (List.mem_cons_of_mem ch hm))]

lemma splitNl_joinLines : ∀ lines : List (List Char), lines ≠ [] →
    (∀ l ∈ lines, '\n' ∉ l) → splitNl (joinLines lines) = lines
  | [], h, _ => absurd rfl h
  | [l], _, hnl => by
    simp only [joinLines]
    exact splitNl_no_newline l (hnl l (by simp))
  | l :: m :: ls, _, hnl => by
    show splitNl (l ++ '\n' :: joinLines (m :: ls)) = _
    rw [splitNl_append l _ (hnl l (by simp))]
    rw [splitNl_joinLines (m :: ls) (by simp) (fun a ha => hnl a (by simp [ha]))]

lemma joinLines_ne_nil (l : List Char) (ls : List (List Char)) (h : l ≠ []) :
    joinLines (l :: ls) ≠ [] := by
  cases ls with
  | nil => exact h
  | cons m ms =>
    show l ++ '\n' :: joinLines (m :: ms) ≠ []
    simp

lemma getLast?_mem_self : ∀ l : List Char, l ≠ [] → ∃ ch, l.getLast? = some ch ∧ ch ∈ l
  | [], h => absurd rfl h
  | [a], _ => ⟨a, rfl, by simp⟩
  | a :: b :: l, _ => by
    obtain ⟨ch, hch, hmem⟩ := getLast?_mem_self (b :: l) (by simp)
    exact ⟨ch, by rw [List.getLast?_cons_cons]; exact hch, List.mem_cons_of_mem a hmem⟩

lemma joinLines_getLast_mem : ∀ lines : List (List Char), lines ≠ [] →
    (∀ m ∈ lines, m ≠ []) →
    ∃ ch, (joinLines lines).getLast? = some ch ∧ ∃ m ∈ lines, ch ∈ m
  | [], h, _ => absurd rfl h
  | [l], _, hne => by
    obtain ⟨ch, hch, hmem⟩ := getLast?_mem_self l (hne l (by simp))
    exact ⟨ch, hch, l, by simp, hmem⟩
  | l :: m :: ls, _, hne => by
    obtain ⟨ch, hch, a, ha, hmem⟩ := joinLines_getLast_mem (m :: ls) (by simp)
      (fun x hx => hne x (by simp [hx]))
    have hJ : joinLines (m :: ls) ≠ [] := joinLines_ne_nil m ls (hne m (by simp))
    refine ⟨ch, ?_, a, List.mem_cons_of_mem l ha, hmem⟩
    show (l ++ '\n' :: joinLines (m :: ls)).getLast? = some ch
    rw [List.getLast?_append]
    cases hJ2 : joinLines (m :: ls) with
    | nil => exact absurd hJ2 hJ
    | cons j J2 =>
      rw [hJ2] at hch
      rw [List.getLast?_cons_cons, hch]
      rfl

lemma checkLengths_none (n : Nat) : ∀ (i : Nat) (ls : List (List Char)),
    (∀ l ∈ ls, l.length = n) → checkLengths n i ls = none
  | _, [], _ => rfl
  | i, l :: ls, h => by
    simp only [checkLengths]
    rw [if_neg (by simp [h l (List.mem_cons_self l ls)])]
    exact checkLengths_none n (i + 1) ls (fun a ha => h a (List.mem_cons_of_mem l ha))

lemma checkLengths_first_err (n : Nat) : ∀ (i : Nat) (pre : List (List Char))
    (l : List Char) (rest : List (List Char)),
    (∀ p ∈ pre, p.length = n) → l.length ≠ n →
    checkLengths n i (pre ++ l :: rest) = some (.badLength (i + pre.length + 1) l.length n)
  | _, [], l, _, _, hl => by
    simp only [List.nil_append, checkLengths]
    rw [if_pos hl]
    rfl
  | i, p :: pre, l, rest, hpre, hl => by
    simp only [List.cons_append, checkLengths]
    rw [if_neg (by simp [hpre p (List.mem_cons_self p pre)])]
    simp only [List.append_eq]
    rw [checkLengths_first_err n (i + 1) pre l rest
      (fun a ha => hpre a (List.mem_cons_of_mem p ha)) hl]
    have harg : i + 1 + pre.length + 1 = i + (p :: pre).length + 1 := by
      simp only [List.length_cons]; omega
    rw [harg]

lemma parseRow_ok (i : Nat) : ∀ (j : Nat) (l : List Char),
    (∀ ch ∈ l, ch = '0' ∨ ch = '1') → parseRow i j l = .ok (l.map bitOfChar)
  | _, [], _ => rfl
  | j, ch :: cs, h => by
    simp only [parseRow]
    rcases h ch (List.mem_cons_self ch cs) with h0 | h1
    · rw [if_neg (by rw [h0]; decide), if_pos h0]
      rw [parseRow_ok i (j + 1) cs (fun a ha => h a (List.mem_cons_of_mem ch ha))]
      simp [bitOfChar, h0, Except.map]
    · rw [if_pos h1]
      rw [parseRow_ok i (j + 1) cs (fun a ha => h a (List.mem_cons_of_mem ch ha))]
      simp [bitOfChar, h1, Except.map]

lemma parseRow_first_err (i : Nat) : ∀ (j : Nat) (pre : List Char) (ch : Char)
    (rest : List Char), (∀ a ∈ pre, a = '0' ∨ a = '1') → ch ≠ '0' → ch ≠ '1' →
    parseRow i j (pre ++ ch :: rest) = .error (.badChar ch i (j + pre.length))
  | j, [], ch, rest, _, h0, h1 => by
    simp only [List.nil_append, parseRow]
    rw [if_neg h1, if_neg h0]
    rfl
  | j, a :: pre, ch, rest, hpre, h0, h1 => by
    simp only [List.cons_append, parseRow]
    simp only [List.append_eq]
    have harg : j + 1 + pre.length = j + (a :: pre).length := by
      simp only [List.length_cons]; omega
    rcases hpre a (List.mem_cons_self a pre) with ha | ha
    · rw [if_neg (by rw [ha]; decide), if_pos ha]
      rw [parseRow_first_err i (j + 1) pre ch rest
        (fun x hx => hpre x (List.mem_cons_of_mem a hx)) h0 h1]
      rw [harg]
      rfl
    · rw [if_pos ha]
      rw [parseRow_first_err i (j + 1) pre ch rest
        (fun x hx => hpre x (List.mem_cons_of_mem a hx)) h0 h1]
      rw [harg]
      rfl

lemma parseRows_ok : ∀ (i : Nat) (ls : List (List Char)),
    (∀ l ∈ ls, ∀ ch ∈ l, ch = '0' ∨ ch = '1') →
    parseRows i ls = .ok (ls.map (List.map bitOfChar))
  | _, [], _ => rfl
  | i, l :: ls, h => by
    simp only [parseRows]
    rw [parseRow_ok i 0 l (h l (List.mem_cons_self l ls))]
    rw [parseRows_ok (i + 1) ls (fun a ha => h a (List.mem_cons_of_mem l ha))]
    rfl

lemma parseRows_first_err : ∀ (i : Nat) (pre : List (List Char)) (l : List Char)
    (rest : List (List Char)) (cpre : List Char) (ch : Char) (crest : List Char),
    (∀ p ∈ pre, ∀ a ∈ p, a = '0' ∨ a = '1') →
    l = cpre ++ ch :: crest →
    (∀ a ∈ cpre, a = '0' ∨ a = '1') → ch ≠ '0' → ch ≠ '1' →
    parseRows i (pre ++ l :: rest) = .error (.badChar ch (i + pre.length) cpre.length)
  | i, [], l, rest, cpre, ch, crest, _, hl, hcpre, h0, h1 => by
    simp only [List.nil_append, parseRows]
    rw [hl, parseRow_first_err i 0 cpre ch crest hcpre h0 h1]
    have harg : (0 : Nat) + cpre.length = cpre.length := by omega
    rw [harg]
    rfl
  | i, p :: pre, l, rest, cpre, ch, crest, hpre, hl, hcpre, h0, h1 => by
    simp only [List.cons_append, parseRows]
    simp only [List.append_eq]
    rw [parseRow_ok i 0 p (hpre p (List.mem_cons_self p pre))]
    rw [parseRows_first_err (i + 1) pre l rest cpre ch crest
      (fun x hx => hpre x (List.mem_cons_of_mem p hx)) hl hcpre h0 h1]
    have harg : i + 1 + pre.length = i + (p :: pre).length := by
      simp only [List.length_cons]; omega
    rw [harg]
    rfl

lemma loadLines_ok (ls : List (List Char)) (hne : ls ≠ [])
    (hlen : ∀ l ∈ ls, l.length = ls.length)
    (hch : ∀ l ∈ ls, ∀ ch ∈ l, ch = '0' ∨ ch = '1') :
    loadLines ls = .ok (ls.length, ls.map (List.map bitOfChar)) := by
  unfold loadLines
  rw [if_neg hne]
  rw [checkLengths_none ls.length 0 ls hlen]
  rw [parseRows_ok 0 ls hch]

lemma loadLines_badLength (ls : List (List Char)) (hne : ls ≠ [])
    (pre : List (List Char)) (l : List Char) (rest : List (List Char))
    (hsplit : ls = pre ++ l :: rest)
    (hpre : ∀ p ∈ pre, p.length = ls.length) (hl : l.length ≠ ls.length) :
    loadLines ls = .error (.badLength (pre.length + 1) l.length ls.length) := by
  subst hsplit
  unfold loadLines
  rw [if_neg hne]
  rw [checkLengths_first_err _ 0 pre l rest hpre hl]
  have harg : (0 : Nat) + pre.length + 1 = pre.length + 1 := by omega
  rw [harg]

lemma loadLines_badChar (ls : List (List Char)) (hne : ls ≠ [])
    (hlen : ∀ l ∈ ls, l.length = ls.length)
    (pre : List (List Char)) (l : List Char) (rest : List (List Char))
    (cpre : List Char) (ch : Char) (crest : List Char)
    (hsplit : ls = pre ++ l :: rest)
    (hpre : ∀ p ∈ pre, ∀ a ∈ p, a = '0' ∨ a = '1')
    (hl : l = cpre ++ ch :: crest) (hcpre : ∀ a ∈ cpre, a = '0' ∨ a = '1')
    (h0 : ch ≠ '0') (h1 : ch ≠ '1') :
    loadLines ls = .error (.badChar ch pre.length cpre.length) := by
  subst hsplit
  unfold loadLines
  rw [if_neg hne]
  rw [checkLengths_none _ 0 _ hlen]
  rw [parseRows_first_err 0 pre l rest cpre ch crest hpre hl hcpre h0 h1]
  have harg : (0 : Nat) + pre.length = pre.length := by omega
  rw [harg]

lemma checkLengths_none_sound (n : Nat) : ∀ (i : Nat) (ls : List (List Char)),
    checkLengths n i ls = none → ∀ l ∈ ls, l.length = n
  | _, [], _ => by simp
  | i, l :: ls, h => by
    simp only [checkLengths] at h
    by_cases hl : l.length ≠ n
    · rw [if_pos hl] at h; cases h
    · rw [if_neg hl] at h
      intro a ha
      rcases List.mem_cons.mp ha with rfl | ha2
      · omega
      · exact checkLengths_none_sound n (i + 1) ls h a ha2

lemma parseRow_ok_sound (i : Nat) : ∀ (j : Nat) (l : List Char) (v : List Int),
    parseRow i j l = .ok v → ∀ ch ∈ l, ch = '0' ∨ ch = '1'
  | _, [], _, _ => by simp
  | j, ch :: cs, v, h => by
    simp only [parseRow] at h
    intro a ha
    by_cases h1 : ch = '1'
    · rw [if_pos h1] at h
      rcases List.mem_cons.mp ha with rfl | ha2
      · right; exact h1
      · cases hrec : parseRow i (j + 1) cs with
        | error err => rw [hrec] at h; simp [Except.map] at h
        | ok w => exact parseRow_ok_sound i (j + 1) cs w hrec a ha2
    · rw [if_neg h1] at h
      by_cases h0 : ch = '0'
      · rw [if_pos h0] at h
        rcases List.mem_cons.mp ha with rfl | ha2
        · left; exact h0
        · cases hrec : parseRow i (j + 1) cs with
          | error err => rw [hrec] at h; simp [Except.map] at h
          | ok w => exact parseRow_ok_sound i (j + 1) cs w hrec a ha2
      · rw [if_neg h0] at h; cases h

lemma parseRows_ok_sound : ∀ (i : Nat) (ls : List (List Char)) (g : List (List Int)),
    parseRows i ls = .ok g → ∀ l ∈ ls, ∀ ch ∈ l, ch = '0' ∨ ch = '1'
  | _, [], _, _ => by simp
  | i, l :: ls, g, h => by
    simp only [parseRows] at h
    intro a ha
    cases hrow : parseRow i 0 l with
    | error err => rw [hrow] at h; cases h
    | ok row =>
      rw [hrow] at h
      rcases List.mem_cons.mp ha with rfl | ha2
      · exact parseRow_ok_sound i 0 a row hrow
      · cases hrec : parseRows (i + 1) ls with
        | error err => rw [hrec] at h; simp [Except.map] at h
        | ok w => exact parseRows_ok_sound (i + 1) ls w hrec a ha2

lemma loadLines_ok_sound (ls : List (List Char)) (v : Nat × List (List Int))
    (h : loadLines ls = .ok v) :
    ls ≠ [] ∧ (∀ l ∈ ls, l.length = ls.length) ∧
    (∀ l ∈ ls, ∀ ch ∈ l, ch = '0' ∨ ch = '1') := by
  unfold loadLines at h
  by_cases hne : ls = []
  · rw [if_pos hne] at h; cases h
  · rw [if_neg hne] at h
    cases hcl : checkLengths ls.length 0 ls with
    | some err => rw [hcl] at h; cases h
    | none =>
      rw [hcl] at h
      cases hpr : parseRows 0 ls with
      | error err => rw [hpr] at h; cases h
      | ok g =>
        rw [hpr] at h
        exact ⟨hne, checkLengths_none_sound _ 0 ls hcl, parseRows_ok_sound 0 ls g hpr⟩

lemma gval_map_lines (lines : List (List Char)) {r c : Nat}
    (hr : r < lines.length) (hc : c < (lines.getD r []).length) :
    gval (lines.map (List.map bitOfChar)) r c = bitOfChar ((lines.getD r []).getD c ' ') := by
  have hrow : lines.getD r [] = lines[r] := by
    rw [List.getD_eq_getElem?_getD, List.getElem?_eq_getElem hr]
    rfl
  rw [hrow] at hc ⊢
  unfold gval
  rw [List.getD_eq_getElem?_getD (lines.map (List.map bitOfChar)) r,
    List.getElem?_map, List.getElem?_eq_getElem hr]
  show (List.map bitOfChar lines[r]).getD c 0 = _
  rw [List.getD_eq_getElem?_getD (lines[r].map bitOfChar) c,
    List.getElem?_map, List.getElem?_eq_getElem hc]
  show bitOfChar lines[r][c] = _
  rw [List.getD_eq_getElem?_getD lines[r] c, List.getElem?_eq_getElem hc]
  rfl

lemma getD_mem_of_lt (lines : List (List Char)) {r : Nat} (hr : r < lines.length) :
    lines.getD r [] ∈ lines := by
  rw [List.getD_eq_getElem?_getD, List.getElem?_eq_getElem hr]
  exact List.getElem_mem hr

lemma joinLines_strip (lines : List (List Char)) (hne : lines ≠ [])
    (hch : ∀ l ∈ lines, ∀ ch ∈ l, ch = '0' ∨ ch = '1')
    (hnonempty : ∀ l ∈ lines, l ≠ []) :
    pyStrip (joinLines lines) = joinLines lines := by
  apply pyStrip_eq_self
  · intro ch hh
    cases lines with
    | nil => exact absurd rfl hne
    | cons l ls =>
      have hlne : l ≠ [] := hnonempty l (List.mem_cons_self l ls)
      have hhead : (joinLines (l :: ls)).head? = l.head? := by
        cases ls with
        | nil => rfl
        | cons m ms =>
          show (l ++ '\n' :: joinLines (m :: ms)).head? = l.head?
          rw [List.head?_append]
          cases hl0 : l with
          | nil => exact absurd hl0 hlne
          | cons a as => rfl
      rw [hhead] at hh
      have hmem : ch ∈ l := by
        cases hl0 : l with
        | nil => rw [hl0] at hh; cases hh
        | cons a as =>
          rw [hl0] at hh
          rw [← Option.some.inj hh]
          exact List.mem_cons_self a as
      rcases hch l (List.mem_cons_self l ls) ch hmem with h | h <;> rw [h] <;> rfl
  · intro ch hh
    obtain ⟨ch2, hch2, m, hm, hmem⟩ := joinLines_getLast_mem lines hne hnonempty
    rw [hch2] at hh
    rw [← Option.some.inj hh]
    rcases hch m hm ch2 hmem with h | h <;> rw [h] <;> rfl

/-- C3: loading the text of n valid lines (each of length n, all characters
binary digits) succeeds, sets both dimensions to n, and afterwards get(r,c)
returns 1 exactly where the character at line r, column c is the digit 1. -/
theorem claim3_round_trip (lines : List (List Char)) (hne : lines ≠ [])
    (hlen : ∀ l ∈ lines, l.length = lines.length)
    (hch : ∀ l ∈ lines, ∀ ch ∈ l, ch = '0' ∨ ch = '1') (e : Engine) :
    (loadPattern e (joinLines lines)).2 = none ∧
    (loadPattern e (joinLines lines)).1.rows = lines.length ∧
    (loadPattern e (joinLines lines)).1.cols = lines.length ∧
    ∀ r c : Nat, r < lines.length → c < lines.length →
      getCell (loadPattern e (joinLines lines)).1 r c =
        bitOfChar ((lines.getD r []).getD c ' ') := by
  have hnl : ∀ l ∈ lines, '\n' ∉ l := by
    intro l hl hmem
    rcases hch l hl _ hmem with h | h <;> exact absurd h (by decide)
  have hnonempty : ∀ l ∈ lines, l ≠ [] := by
    intro l hl h0
    have hlength := hlen l hl
    rw [h0] at hlength
    exact hne (List.length_eq_zero.mp hlength.symm)
  have hsplit : linesOf (joinLines lines) = lines := by
    unfold linesOf
    rw [joinLines_strip lines hne hch hnonempty]
    exact splitNl_joinLines lines hne hnl
  have hload : loadPattern e (joinLines lines) =
      (⟨lines.length, lines.length, lines.map (List.map bitOfChar)⟩, none) := by
    unfold loadPattern
    rw [hsplit, loadLines_ok lines hne hlen hch]
  rw [hload]
  refine ⟨rfl, rfl, rfl, ?_⟩
  intro r c hr hc
  show getCell ⟨lines.length, lines.length, lines.map (List.map bitOfChar)⟩ r c = _
  rw [getCell_eq_gval _ r c hr hc]
  refine gval_map_lines lines hr ?_
  rw [hlen (lines.getD r []) (getD_mem_of_lt lines hr)]
  exact hc

/-- test pattern lines for the loader claims. -/
def sampleLines : List (List Char) := [['0', '1'], ['1', '0']]

theorem claim3_round_trip_witness :
    sampleLines ≠ [] ∧ (∀ l ∈ sampleLines, l.length = sampleLines.length) ∧
    (∀ l ∈ sampleLines, ∀ ch ∈ l, ch = '0' ∨ ch = '1') ∧
    ((loadPattern (mkEngine 5 5) (joinLines sampleLines)).2 = none ∧
     (loadPattern (mkEngine 5 5) (joinLines sampleLines)).1.rows = sampleLines.length ∧
     (loadPattern (mkEngine 5 5) (joinLines sampleLines)).1.cols = sampleLines.length ∧
     getCell (loadPattern (mkEngine 5 5) (joinLines sampleLines)).1 0 1 =
       bitOfChar ((sampleLines.getD 0 []).getD 1 ' ')) := by
  have h := claim3_round_trip sampleLines (by decide) (by decide) (by decide) (mkEngine 5 5)
  exact ⟨by decide, by decide, by decide, h.1, h.2.1, h.2.2.1,
    h.2.2.2 0 1 (by decide) (by decide)⟩

/-- Malformed pattern input: empty, some line of the wrong length, or some
character that is not a binary digit. -/
def malformed (content : List Char) : Prop :=
  content = [] ∨
  (∃ l ∈ linesOf content, l.length ≠ (linesOf content).length) ∨
  (∃ l ∈ linesOf content, ∃ ch ∈ l, ch ≠ '0' ∧ ch ≠ '1')

instance (content : List Char) : Decidable (malformed content) := by
  unfold malformed; infer_instance

/-- C4: on any malformed input the load raises an error and leaves the
engine — cells and dimensions — exactly as it was: the load is atomic. -/
theorem claim4_atomic_failure (e : Engine) (content : List Char)
    (hmal : malformed content) :
    (loadPattern e content).2 ≠ none ∧ (loadPattern e content).1 = e := by
  have herr : ∀ v, loadLines (linesOf content) ≠ .ok v := by
    intro v hok
    obtain ⟨hne, hlen, hch⟩ := loadLines_ok_sound _ v hok
    rcases hmal with h0 | hbadlen | hbadch
    · subst h0
      exact absurd (hlen [] (by decide)) (by decide)
    · obtain ⟨l, hl, hlne⟩ := hbadlen
      exact hlne (hlen l hl)
    · obtain ⟨l, hl, ch, hchm, hch2⟩ := hbadch
      rcases hch l hl ch hchm with h | h
      · exact hch2.1 h
      · exact hch2.2 h
  unfold loadPattern
  cases hres : loadLines (linesOf content) with
  | error err => exact ⟨by simp, rfl⟩
  | ok v => exact absurd hres (herr v)

theorem claim4_atomic_failure_witness :
    malformed ['2'] ∧
    (loadPattern sampleE ['2']).2 ≠ none ∧ (loadPattern sampleE ['2']).1 = sampleE :=
  ⟨by decide, claim4_atomic_failure sampleE ['2'] (by decide)⟩

/-- C5: validation raises on the first violation in order: a stripped-empty
input is rejected; otherwise the first line of wrong length is reported by
its 1-based number, its length and the expected length, before any character
check; when all lengths pass, the first non-binary character (first bad line,
first bad column) is reported with its 0-based line and column. -/
theorem claim5_validation_order (content : List Char) (e : Engine) :
    (pyStrip content = [] → (loadPattern e content).2 ≠ none) ∧
    (∀ pre l rest, linesOf content = pre ++ l :: rest →
      (∀ p ∈ pre, p.length = (linesOf content).length) →
      l.length ≠ (linesOf content).length →
      (loadPattern e content).2 =
        some (.badLength (pre.length + 1) l.length (linesOf content).length)) ∧
    ((∀ l ∈ linesOf content, l.length = (linesOf content).length) →
      ∀ pre l rest cpre ch crest, linesOf content = pre ++ l :: rest →
        (∀ p ∈ pre, ∀ a ∈ p, a = '0' ∨ a = '1') →
        l = cpre ++ ch :: crest →
        (∀ a ∈ cpre, a = '0' ∨ a = '1') →
        ch ≠ '0' → ch ≠ '1' →
        (loadPattern e content).2 = some (.badChar ch pre.length cpre.length)) := by
  have hne : linesOf content ≠ [] := by
    unfold linesOf
    exact splitNl_ne_nil _
  refine ⟨?_, ?_, ?_⟩
  · intro h0
    have hl0 : linesOf content = [[]] := by
      unfold linesOf
      rw [h0]
      rfl
    unfold loadPattern
    rw [hl0]
    rw [show loadLines [[]] = .error (.badLength 1 0 1) from rfl]
    simp
  · intro pre l rest hsplit hpre hl
    unfold loadPattern
    rw [loadLines_badLength (linesOf content) hne pre l rest hsplit hpre hl]
  · intro hlen pre l rest cpre ch crest hsplit hpre hl hcpre h0 h1
    unfold loadPattern
    rw [loadLines_badChar (linesOf content) hne hlen pre l rest cpre ch crest
      hsplit hpre hl hcpre h0 h1]

theorem claim5_validation_order_witness :
    ((pyStrip [' '] = [] → (loadPattern sampleE [' ']).2 ≠ none) ∧
      (loadPattern sampleE [' ']).2 ≠ none) ∧
    (loadPattern sampleE ('0' :: '1' :: '\n' :: '1' :: '\n' :: '0' :: '1' ::[])).2 =
      some (.badLength 1 2 3) ∧
    (loadPattern sampleE ('0' :: '1' :: '\n' :: '1' :: 'x' ::[])).2 =
      some (.badChar 'x' 1 1) := by
  refine ⟨⟨(claim5_validation_order [' '] sampleE).1, ?_⟩, ?_, ?_⟩
  · exact (claim5_validation_order [' '] sampleE).1 (by decide)
  · exact (claim5_validation_order ('0' :: '1' :: '\n' :: '1' :: '\n' :: '0' :: '1' ::[]) sampleE).2.1
      [] ['0', '1'] [['1'], ['0', '1']] (by decide) (by decide) (by decide)
  · exact (claim5_validation_order ('0' :: '1' :: '\n' :: '1' :: 'x' ::[]) sampleE).2.2
      (by decide) [['0', '1']] ['1', 'x'] [] ['1'] 'x' [] (by decide) (by decide)
      (by decide) (by decide) (by decide) (by decide)

/-- C10: loading any input behaves exactly as loading it with leading and
trailing whitespace removed; an input starting with a blank line followed by
a valid pattern loads as that pattern, and whitespace-only input is rejected
identically to the empty string. -/
theorem claim10_leading_strip (e : Engine) (s : List Char) :
    loadPattern e s = loadPattern e (pyStrip s) ∧
    loadPattern e
        ('\n' :: ('0' :: '1' :: '0' :: '\n' :: '1' :: '1' :: '1' :: '\n' :: '0' :: '1' :: '0' ::[])) =
      (⟨3, 3, [[0, 1, 0], [1, 1, 1], [0, 1, 0]]⟩, none) ∧
    loadPattern e (' ' :: '\n' :: '\t' ::[]) = loadPattern e [] := by
  refine ⟨?_, rfl, rfl⟩
  unfold loadPattern linesOf
  rw [pyStrip_idem]

/-- The 8-term neighbor sum of an entry function, one guarded term per numpy
slice statement. -/
def nbrOf (rows cols : Nat) (f : Nat → Nat → Int) (i j : Nat) : Int :=
  (if i + 1 < rows then f (i + 1) j else 0) +
  (if 1 ≤ i then f (i - 1) j else 0) +
  (if j + 1 < cols then f i (j + 1) else 0) +
  (if 1 ≤ j then f i (j - 1) else 0) +
  (if i + 1 < rows ∧ j + 1 < cols then f (i + 1) (j + 1) else 0) +
  (if 1 ≤ i ∧ 1 ≤ j then f (i - 1) (j - 1) else 0) +
  (if i + 1 < rows ∧ 1 ≤ j then f (i + 1) (j - 1) else 0) +
  (if 1 ≤ i ∧ j + 1 < cols then f (i - 1) (j + 1) else 0)

lemma binaryGrid_buildGrid (rows cols : Nat) (f : Nat → Nat → Int)
    (hf : ∀ i j, f i j = 0 ∨ f i j = 1) : binaryGrid (buildGrid rows cols f) := by
  intro l hl v hv
  simp only [buildGrid, List.mem_map] at hl
  obtain ⟨a, _, rfl⟩ := hl
  simp only [List.mem_map] at hv
  obtain ⟨b, _, rfl⟩ := hv
  exact hf a b

lemma gval_guard_buildGrid (rows cols : Nat) (f : Nat → Nat → Int)
    (P : Prop) [Decidable P] (x y : Nat) (hx : P → x < rows) (hy : P → y < cols) :
    (if P then gval (buildGrid rows cols f) x y else 0) = (if P then f x y else 0) := by
  by_cases h : P
  · rw [if_pos h, if_pos h, gval_buildGrid _ _ _ (hx h) (hy h)]
  · rw [if_neg h, if_neg h]

lemma countNeighborsAt_buildGrid (rows cols : Nat) (f : Nat → Nat → Int)
    (hf : ∀ i j, f i j = 0 ∨ f i j = 1) {i j : Nat} (hi : i < rows) (hj : j < cols) :
    countNeighborsAt (buildGrid rows cols f) rows cols i j = nbrOf rows cols f i j := by
  rw [countNeighborsAt_eq_sum (binaryGrid_buildGrid rows cols f hf)]
  unfold nbrOf
  rw [gval_guard_buildGrid rows cols f _ (i + 1) j (fun h => h) (fun _ => hj)]
  rw [gval_guard_buildGrid rows cols f _ (i - 1) j (fun _ => by omega) (fun _ => hj)]
  rw [gval_guard_buildGrid rows cols f _ i (j + 1) (fun _ => hi) (fun h => h)]
  rw [gval_guard_buildGrid rows cols f _ i (j - 1) (fun _ => hi) (fun _ => by omega)]
  rw [gval_guard_buildGrid rows cols f _ (i + 1) (j + 1) (fun h => h.1) (fun h => h.2)]
  rw [gval_guard_buildGrid rows cols f _ (i - 1) (j - 1) (fun _ => by omega) (fun _ => by omega)]
  rw [gval_guard_buildGrid rows cols f _ (i + 1) (j - 1) (fun h => h.1) (fun _ => by omega)]
  rw [gval_guard_buildGrid rows cols f _ (i - 1) (j + 1) (fun _ => by omega) (fun h => h.2)]

lemma buildGrid_congr {rows cols : Nat} {f g : Nat → Nat → Int}
    (h : ∀ i, i < rows → ∀ j, j < cols → f i j = g i j) :
    buildGrid rows cols f = buildGrid rows cols g := by
  unfold buildGrid
  apply List.map_congr_left
  intro a ha
  apply List.map_congr_left
  intro b hb
  exact h a (List.mem_range.mp ha) b (List.mem_range.mp hb)

lemma step_buildGrid (rows cols : Nat) (f : Nat → Nat → Int)
    (hf : ∀ i j, f i j = 0 ∨ f i j = 1) :
    step ⟨rows, cols, buildGrid rows cols f⟩ =
      ⟨rows, cols, buildGrid rows cols (fun i j =>
        if (f i j = 1 ∧ (nbrOf rows cols f i j = 2 ∨ nbrOf rows cols f i j = 3)) ∨
           (f i j = 0 ∧ nbrOf rows cols f i j = 3) then 1 else 0)⟩ := by
  simp only [step, countNeighbors]
  congr 1
  apply buildGrid_congr
  intro i hi j hj
  have h1 : gval (buildGrid rows cols f) i j = f i j := gval_buildGrid _ _ _ hi hj
  have h2 : gval (buildGrid rows cols fun a b =>
      countNeighborsAt (buildGrid rows cols f) rows cols a b) i j
      = countNeighborsAt (buildGrid rows cols f) rows cols i j :=
    gval_buildGrid _ _ _ hi hj
  simp only [h1, h2, countNeighborsAt_buildGrid rows cols f hf hi hj]

/-- Indicator of the horizontal 3-cell blinker at row r, columns c-1..c+1
(for 1 <= c the condition c <= j + 1 and j <= c + 1 says exactly that j is
one of c-1, c, c+1). -/
def horizInd (r c : Nat) (i j : Nat) : Int :=
  if i = r ∧ c ≤ j + 1 ∧ j ≤ c + 1 then 1 else 0

/-- Indicator of the vertical 3-cell blinker at column c, rows r-1..r+1. -/
def vertInd (r c : Nat) (i j : Nat) : Int :=
  if j = c ∧ r ≤ i + 1 ∧ i ≤ r + 1 then 1 else 0

/-- Grid that is dead everywhere except the horizontal blinker. -/
def horizBlinker (rows cols r c : Nat) : Engine :=
  ⟨rows, cols, buildGrid rows cols (horizInd r c)⟩

/-- Grid that is dead everywhere except the vertical blinker. -/
def vertBlinker (rows cols r c : Nat) : Engine :=
  ⟨rows, cols, buildGrid rows cols (vertInd r c)⟩

lemma horizInd_binary (r c : Nat) : ∀ i j, horizInd r c i j = 0 ∨ horizInd r c i j = 1 := by
  intro i j
  unfold horizInd
  split
  · right; rfl
  · left; rfl

lemma vertInd_binary (r c : Nat) : ∀ i j, vertInd r c i j = 0 ∨ vertInd r c i j = 1 := by
  intro i j
  unfold vertInd
  split
  · right; rfl
  · left; rfl

lemma ite_indicator_merge (G P : Prop) [Decidable G] [Decidable P] :
    (if G then (if P then (1 : Int) else 0) else 0) = if G ∧ P then 1 else 0 := by
  by_cases hG : G <;> by_cases hP : P <;> simp [hG, hP]

lemma ite_char {C : Prop} [Decidable C] {t : Int}
    (h : (if C then (1 : Int) else 0) = t) : (C → t = 1) ∧ (¬C → t = 0) := by
  by_cases hc : C
  · exact ⟨fun _ => by rw [← h, if_pos hc], fun hn => absurd hc hn⟩
  · exact ⟨fun hcc => absurd hcc hc, fun _ => by rw [← h, if_neg hc]⟩

lemma ite_eq_of (A : Prop) [Decidable A] (v : Int)
    (h1 : A → v = 1) (h0 : ¬A → v = 0) : (if A then (1 : Int) else 0) = v := by
  by_cases h : A
  · rw [if_pos h, h1 h]
  · rw [if_neg h, h0 h]

lemma ind_sum_char {C1 C2 C3 C4 C5 C6 C7 C8 : Prop}
    [Decidable C1] [Decidable C2] [Decidable C3] [Decidable C4]
    [Decidable C5] [Decidable C6] [Decidable C7] [Decidable C8] {s : Int}
    (h : (if C1 then (1 : Int) else 0) + (if C2 then (1 : Int) else 0) +
      (if C3 then (1 : Int) else 0) + (if C4 then (1 : Int) else 0) +
      (if C5 then (1 : Int) else 0) + (if C6 then (1 : Int) else 0) +
      (if C7 then (1 : Int) else 0) + (if C8 then (1 : Int) else 0) = s) :
    ∃ t1 t2 t3 t4 t5 t6 t7 t8 : Int,
      s = t1 + t2 + t3 + t4 + t5 + t6 + t7 + t8 ∧
      ((C1 → t1 = 1) ∧ (¬C1 → t1 = 0)) ∧ ((C2 → t2 = 1) ∧ (¬C2 → t2 = 0)) ∧
      ((C3 → t3 = 1) ∧ (¬C3 → t3 = 0)) ∧ ((C4 → t4 = 1) ∧ (¬C4 → t4 = 0)) ∧
      ((C5 → t5 = 1) ∧ (¬C5 → t5 = 0)) ∧ ((C6 → t6 = 1) ∧ (¬C6 → t6 = 0)) ∧
      ((C7 → t7 = 1) ∧ (¬C7 → t7 = 0)) ∧ ((C8 → t8 = 1) ∧ (¬C8 → t8 = 0)) :=
  ⟨_, _, _, _, _, _, _, _, h.symm,
    ite_char rfl, ite_char rfl, ite_char rfl, ite_char rfl,
    ite_char rfl, ite_char rfl, ite_char rfl, ite_char rfl⟩

lemma step_horizBlinker (rows cols r c : Nat)
    (hr1 : 1 ≤ r) (hr2 : r + 1 < rows) (hc1 : 1 ≤ c) (hc2 : c + 1 < cols) :
    step (horizBlinker rows cols r c) = vertBlinker rows cols r c := by
  unfold horizBlinker vertBlinker
  rw [step_buildGrid rows cols (horizInd r c) (horizInd_binary r c)]
  congr 1
  apply buildGrid_congr
  intro i hi j hj
  obtain ⟨s, hS⟩ : ∃ s : Int, nbrOf rows cols (horizInd r c) i j = s := ⟨_, rfl⟩
  obtain ⟨q, hq⟩ : ∃ q : Int, horizInd r c i j = q := ⟨_, rfl⟩
  obtain ⟨v, hv⟩ : ∃ v : Int, vertInd r c i j = v := ⟨_, rfl⟩
  rw [hS, hq, hv]
  simp only [nbrOf, horizInd, ite_indicator_merge] at hS
  simp only [horizInd] at hq
  simp only [vertInd] at hv
  obtain ⟨t1, t2, t3, t4, t5, t6, t7, t8, hsum, k1, k2, k3, k4, k5, k6, k7, k8⟩ :=
    ind_sum_char hS
  have hq2 := ite_char hq
  have hv2 := ite_char hv
  clear hS hq hv
  rcases (by omega : (i + 1 = r) ∨ (i = r) ∨ (i = r + 1) ∨ (i + 1 < r ∨ r + 1 < i)) with hi1 | hi1 | hi1 | hi1
  · rcases (by omega : (j + 2 = c) ∨ (j + 1 = c) ∨ (j = c) ∨ (j = c + 1) ∨ (j = c + 2) ∨ (j + 2 < c ∨ c + 2 < j)) with hj1 | hj1 | hj1 | hj1 | hj1 | hj1
    · have e1 : t1 = 0 := k1.2 (by omega)
      have e2 : t2 = 0 := k2.2 (by omega)
      have e3 : t3 = 0 := k3.2 (by omega)
      have e4 : t4 = 0 := k4.2 (by omega)
      have e5 : t5 = 1 := k5.1 (by omega)
      have e6 : t6 = 0 := k6.2 (by omega)
      have e7 : t7 = 0 := k7.2 (by omega)
      have e8 : t8 = 0 := k8.2 (by omega)
      have eq1 : q = 0 := hq2.2 (by omega)
      have ev1 : v = 0 := hv2.2 (by omega)
      clear k1 k2 k3 k4 k5 k6 k7 k8 hq2 hv2
      apply ite_eq_of <;> intro hA <;> omega
    · have e1 : t1 = 1 := k1.1 (by omega)
      have e2 : t2 = 0 := k2.2 (by omega)
      have e3 : t3 = 0 := k3.2 (by omega)
      have e4 : t4 = 0 := k4.2 (by omega)
      have e5 : t5 = 1 := k5.1 (by omega)
      have e6 : t6 = 0 := k6.2 (by omega)
      have e7 : t7 = 0 := k7.2 (by omega)
      have e8 : t8 = 0 := k8.2 (by omega)
      have eq1 : q = 0 := hq2.2 (by omega)
      have ev1 : v = 0 := hv2.2 (by omega)
      clear k1 k2 k3 k4 k5 k6 k7 k8 hq2 hv2
      apply ite_eq_of <;> intro hA <;> omega
    · have e1 : t1 = 1 := k1.1 (by omega)
      have e2 : t2 = 0 := k2.2 (by omega)
      have e3 : t3 = 0 := k3.2 (by omega)
      have e4 : t4 = 0 := k4.2 (by omega)
      have e5 : t5 = 1 := k5.1 (by omega)
      have e6 : t6 = 0 := k6.2 (by omega)
      have e7 : t7 = 1 := k7.1 (by omega)
      have e8 : t8 = 0 := k8.2 (by omega)
      have eq1 : q = 0 := hq2.2 (by omega)
      have ev1 : v = 1 := hv2.1 (by omega)
      clear k1 k2 k3 k4 k5 k6 k7 k8 hq2 hv2
      apply ite_eq_of <;> intro hA <;> omega
    · have e1 : t1 = 1 := k1.1 (by omega)
      have e2 : t2 = 0 := k2.2 (by omega)
      have e3 : t3 = 0 := k3.2 (by omega)
      have e4 : t4 = 0 := k4.2 (by omega)
      have e5 : t5 = 0 := k5.2 (by omega)
      have e6 : t6 = 0 := k6.2 (by omega)
      have e7 : t7 = 1 := k7.1 (by omega)
      have e8 : t8 = 0 := k8.2 (by omega)
      have eq1 : q = 0 := hq2.2 (by omega)
      have ev1 : v = 0 := hv2.2 (by omega)
      clear k1 k2 k3 k4 k5 k6 k7 k8 hq2 hv2
      apply ite_eq_of <;> intro hA <;> omega
    · have e1 : t1 = 0 := k1.2 (by omega)
      have e2 : t2 = 0 := k2.2 (by omega)
      have e3 : t3 = 0 := k3.2 (by omega)
      have e4 : t4 = 0 := k4.2 (by omega)
      have e5 : t5 = 0 := k5.2 (by omega)
      have e6 : t6 = 0 := k6.2 (by omega)
      have e7 : t7 = 1 := k7.1 (by omega)
      have e8 : t8 = 0 := k8.2 (by omega)
      have eq1 : q = 0 := hq2.2 (by omega)
      have ev1 : v = 0 := hv2.2 (by omega)
      clear k1 k2 k3 k4 k5 k6 k7 k8 hq2 hv2
      apply ite_eq_of <;> intro hA <;> omega
    · have e1 : t1 = 0 := k1.2 (by omega)
      have e2 : t2 = 0 := k2.2 (by omega)
      have e3 : t3 = 0 := k3.2 (by omega)
      have e4 : t4 = 0 := k4.2 (by omega)
      have e5 : t5 = 0 := k5.2 (by omega)
      have e6 : t6 = 0 := k6.2 (by omega)
      have e7 : t7 = 0 := k7.2 (by omega)
      have e8 : t8 = 0 := k8.2 (by omega)
      have eq1 : q = 0 := hq2.2 (by omega)
      have ev1 : v = 0 := hv2.2 (by omega)
      clear k1 k2 k3 k4 k5 k6 k7 k8 hq2 hv2
      apply ite_eq_of <;> intro hA <;> omega
  · rcases (by omega : (j + 2 = c) ∨ (j + 1 = c) ∨ (j = c) ∨ (j = c + 1) ∨ (j = c + 2) ∨ (j + 2 < c ∨ c + 2 < j)) with hj1 | hj1 | hj1 | hj1 | hj1 | hj1
    · have e1 : t1 = 0 := k1.2 (by omega)
      have e2 : t2 = 0 := k2.2 (by omega)
      have e3 : t3 = 1 := k3.1 (by omega)
      have e4 : t4 = 0 := k4.2 (by omega)
      have e5 : t5 = 0 := k5.2 (by omega)
      have e6 : t6 = 0 := k6.2 (by omega)
      have e7 : t7 = 0 := k7.2 (by omega)
      have e8 : t8 = 0 := k8.2 (by omega)
      have eq1 : q = 0 := hq2.2 (by omega)
      have ev1 : v = 0 := hv2.2 (by omega)
      clear k1 k2 k3 k4 k5 k6 k7 k8 hq2 hv2
      apply ite_eq_of <;> intro hA <;> omega
    · have e1 : t1 = 0 := k1.2 (by omega)
      have e2 : t2 = 0 := k2.2 (by omega)
      have e3 : t3 = 1 := k3.1 (by omega)
      have e4 : t4 = 0 := k4.2 (by omega)
      have e5 : t5 = 0 := k5.2 (by omega)
      have e6 : t6 = 0 := k6.2 (by omega)
      have e7 : t7 = 0 := k7.2 (by omega)
      have e8 : t8 = 0 := k8.2 (by omega)
      have eq1 : q = 1 := hq2.1 (by omega)
      have ev1 : v = 0 := hv2.2 (by omega)
      clear k1 k2 k3 k4 k5 k6 k7 k8 hq2 hv2
      apply ite_eq_of <;> intro hA <;> omega
    · have e1 : t1 = 0 := k1.2 (by omega)
      have e2 : t2 = 0 := k2.2 (by omega)
      have e3 : t3 = 1 := k3.1 (by omega)
      have e4 : t4 = 1 := k4.1 (by omega)
      have e5 : t5 = 0 := k5.2 (by omega)
      have e6 : t6 = 0 := k6.2 (by omega)
      have e7 : t7 = 0 := k7.2 (by omega)
      have e8 : t8 = 0 := k8.2 (by omega)
      have eq1 : q = 1 := hq2.1 (by omega)
      have ev1 : v = 1 := hv2.1 (by omega)
      clear k1 k2 k3 k4 k5 k6 k7 k8 hq2 hv2
      apply ite_eq_of <;> intro hA <;> omega
    · have e1 : t1 = 0 := k1.2 (by omega)
      have e2 : t2 = 0 := k2.2 (by omega)
      have e3 : t3 = 0 := k3.2 (by omega)
      have e4 : t4 = 1 := k4.1 (by omega)
      have e5 : t5 = 0 := k5.2 (by omega)
      have e6 : t6 = 0 := k6.2 (by omega)
      have e7 : t7 = 0 := k7.2 (by omega)
      have e8 : t8 = 0 := k8.2 (by omega)
      have eq1 : q = 1 := hq2.1 (by omega)
      have ev1 : v = 0 := hv2.2 (by omega)
      clear k1 k2 k3 k4 k5 k6 k7 k8 hq2 hv2
      apply ite_eq_of <;> intro hA <;> omega
    · have e1 : t1 = 0 := k1.2 (by omega)
      have e2 : t2 = 0 := k2.2 (by omega)
      have e3 : t3 = 0 := k3.2 (by omega)
      have e4 : t4 = 1 := k4.1 (by omega)
      have e5 : t5 = 0 := k5.2 (by omega)
      have e6 : t6 = 0 := k6.2 (by omega)
      have e7 : t7 = 0 := k7.2 (by omega)
      have e8 : t8 = 0 := k8.2 (by omega)
      have eq1 : q = 0 := hq2.2 (by omega)
      have ev1 : v = 0 := hv2.2 (by omega)
      clear k1 k2 k3 k4 k5 k6 k7 k8 hq2 hv2
      apply ite_eq_of <;> intro hA <;> omega
    · have e1 : t1 = 0 := k1.2 (by omega)
      have e2 : t2 = 0 := k2.2 (by omega)
      have e3 : t3 = 0 := k3.2 (by omega)
      have e4 : t4 = 0 := k4.2 (by omega)
      have e5 : t5 = 0 := k5.2 (by omega)
      have e6 : t6 = 0 := k6.2 (by omega)
      have e7 : t7 = 0 := k7.2 (by omega)
      have e8 : t8 = 0 := k8.2 (by omega)
      have eq1 : q = 0 := hq2.2 (by omega)
      have ev1 : v = 0 := hv2.2 (by omega)
      clear k1 k2 k3 k4 k5 k6 k7 k8 hq2 hv2
      apply ite_eq_of <;> intro hA <;> omega
  · rcases (by omega : (j + 2 = c) ∨ (j + 1 = c) ∨ (j = c) ∨ (j = c + 1) ∨ (j = c + 2) ∨ (j + 2 < c ∨ c + 2 < j)) with hj1 | hj1 | hj1 | hj1 | hj1 | hj1
    · have e1 : t1 = 0 := k1.2 (by omega)
      have e2 : t2 = 0 := k2.2 (by omega)
      have e3 : t3 = 0 := k3.2 (by omega)
      have e4 : t4 = 0 := k4.2 (by omega)
      have e5 : t5 = 0 := k5.2 (by omega)
      have e6 : t6 = 0 := k6.2 (by omega)
      have e7 : t7 = 0 := k7.2 (by omega)
      have e8 : t8 = 1 := k8.1 (by omega)
      have eq1 : q = 0 := hq2.2 (by omega)
      have ev1 : v = 0 := hv2.2 (by omega)
      clear k1 k2 k3 k4 k5 k6 k7 k8 hq2 hv2
      apply ite_eq_of <;> intro hA <;> omega
    · have e1 : t1 = 0 := k1.2 (by omega)
      have e2 : t2 = 1 := k2.1 (by omega)
      have e3 : t3 = 0 := k3.2 (by omega)
      have e4 : t4 = 0 := k4.2 (by omega)
      have e5 : t5 = 0 := k5.2 (by omega)
      have e6 : t6 = 0 := k6.2 (by omega)
      have e7 : t7 = 0 := k7.2 (by omega)
      have e8 : t8 = 1 := k8.1 (by omega)
      have eq1 : q = 0 := hq2.2 (by omega)
      have ev1 : v = 0 := hv2.2 (by omega)
      clear k1 k2 k3 k4 k5 k6 k7 k8 hq2 hv2
      apply ite_eq_of <;> intro hA <;> omega
    · have e1 : t1 = 0 := k1.2 (by omega)
      have e2 : t2 = 1 := k2.1 (by omega)
      have e3 : t3 = 0 := k3.2 (by omega)
      have e4 : t4 = 0 := k4.2 (by omega)
      have e5 : t5 = 0 := k5.2 (by omega)
      have e6 : t6 = 1 := k6.1 (by omega)
      have e7 : t7 = 0 := k7.2 (by omega)
      have e8 : t8 = 1 := k8.1 (by omega)
      have eq1 : q = 0 := hq2.2 (by omega)
      have ev1 : v = 1 := hv2.1 (by omega)
      clear k1 k2 k3 k4 k5 k6 k7 k8 hq2 hv2
      apply ite_eq_of <;> intro hA <;> omega
    · have e1 : t1 = 0 := k1.2 (by omega)
      have e2 : t2 = 1 := k2.1 (by omega)
      have e3 : t3 = 0 := k3.2 (by omega)
      have e4 : t4 = 0 := k4.2 (by omega)
      have e5 : t5 = 0 := k5.2 (by omega)
      have e6 : t6 = 1 := k6.1 (by omega)
      have e7 : t7 = 0 := k7.2 (by omega)
      have e8 : t8 = 0 := k8.2 (by omega)
      have eq1 : q = 0 := hq2.2 (by omega)
      have ev1 : v = 0 := hv2.2 (by omega)
      clear k1 k2 k3 k4 k5 k6 k7 k8 hq2 hv2
      apply ite_eq_of <;> intro hA <;> omega
    · have e1 : t1 = 0 := k1.2 (by omega)
      have e2 : t2 = 0 := k2.2 (by omega)
      have e3 : t3 = 0 := k3.2 (by omega)
      have e4 : t4 = 0 := k4.2 (by omega)
      have e5 : t5 = 0 := k5.2 (by omega)
      have e6 : t6 = 1 := k6.1 (by omega)
      have e7 : t7 = 0 := k7.2 (by omega)
      have e8 : t8 = 0 := k8.2 (by omega)
      have eq1 : q = 0 := hq2.2 (by omega)
      have ev1 : v = 0 := hv2.2 (by omega)
      clear k1 k2 k3 k4 k5 k6 k7 k8 hq2 hv2
      apply ite_eq_of <;> intro hA <;> omega
    · have e1 : t1 = 0 := k1.2 (by omega)
      have e2 : t2 = 0 := k2.2 (by omega)
      have e3 : t3 = 0 := k3.2 (by omega)
      have e4 : t4 = 0 := k4.2 (by omega)
      have e5 : t5 = 0 := k5.2 (by omega)
      have e6 : t6 = 0 := k6.2 (by omega)
      have e7 : t7 = 0 := k7.2 (by omega)
      have e8 : t8 = 0 := k8.2 (by omega)
      have eq1 : q = 0 := hq2.2 (by omega)
      have ev1 : v = 0 := hv2.2 (by omega)
      clear k1 k2 k3 k4 k5 k6 k7 k8 hq2 hv2
      apply ite_eq_of <;> intro hA <;> omega
  · rcases (by omega : (j + 2 = c) ∨ (j + 1 = c) ∨ (j = c) ∨ (j = c + 1) ∨ (j = c + 2) ∨ (j + 2 < c ∨ c + 2 < j)) with hj1 | hj1 | hj1 | hj1 | hj1 | hj1
    · have e1 : t1 = 0 := k1.2 (by omega)
      have e2 : t2 = 0 := k2.2 (by omega)
      have e3 : t3 = 0 := k3.2 (by omega)
      have e4 : t4 = 0 := k4.2 (by omega)
      have e5 : t5 = 0 := k5.2 (by omega)
      have e6 : t6 = 0 := k6.2 (by omega)
      have e7 : t7 = 0 := k7.2 (by omega)
      have e8 : t8 = 0 := k8.2 (by omega)
      have eq1 : q = 0 := hq2.2 (by omega)
      have ev1 : v = 0 := hv2.2 (by omega)
      clear k1 k2 k3 k4 k5 k6 k7 k8 hq2 hv2
      apply ite_eq_of <;> intro hA <;> omega
    · have e1 : t1 = 0 := k1.2 (by omega)
      have e2 : t2 = 0 := k2.2 (by omega)
      have e3 : t3 = 0 := k3.2 (by omega)
      have e4 : t4 = 0 := k4.2 (by omega)
      have e5 : t5 = 0 := k5.2 (by omega)
      have e6 : t6 = 0 := k6.2 (by omega)
      have e7 : t7 = 0 := k7.2 (by omega)
      have e8 : t8 = 0 := k8.2 (by omega)
      have eq1 : q = 0 := hq2.2 (by omega)
      have ev1 : v = 0 := hv2.2 (by omega)
      clear k1 k2 k3 k4 k5 k6 k7 k8 hq2 hv2
      apply ite_eq_of <;> intro hA <;> omega
    · have e1 : t1 = 0 := k1.2 (by omega)
      have e2 : t2 = 0 := k2.2 (by omega)
      have e3 : t3 = 0 := k3.2 (by omega)
      have e4 : t4 = 0 := k4.2 (by omega)
      have e5 : t5 = 0 := k5.2 (by omega)
      have e6 : t6 = 0 := k6.2 (by omega)
      have e7 : t7 = 0 := k7.2 (by omega)
      have e8 : t8 = 0 := k8.2 (by omega)
      have eq1 : q = 0 := hq2.2 (by omega)
      have ev1 : v = 0 := hv2.2 (by omega)
      clear k1 k2 k3 k4 k5 k6 k7 k8 hq2 hv2
      apply ite_eq_of <;> intro hA <;> omega
    · have e1 : t1 = 0 := k1.2 (by omega)
      have e2 : t2 = 0 := k2.2 (by omega)
      have e3 : t3 = 0 := k3.2 (by omega)
      have e4 : t4 = 0 := k4.2 (by omega)
      have e5 : t5 = 0 := k5.2 (by omega)
      have e6 : t6 = 0 := k6.2 (by omega)
      have e7 : t7 = 0 := k7.2 (by omega)
      have e8 : t8 = 0 := k8.2 (by omega)
      have eq1 : q = 0 := hq2.2 (by omega)
      have ev1 : v = 0 := hv2.2 (by omega)
      clear k1 k2 k3 k4 k5 k6 k7 k8 hq2 hv2
      apply ite_eq_of <;> intro hA <;> omega
    · have e1 : t1 = 0 := k1.2 (by omega)
      have e2 : t2 = 0 := k2.2 (by omega)
      have e3 : t3 = 0 := k3.2 (by omega)
      have e4 : t4 = 0 := k4.2 (by omega)
      have e5 : t5 = 0 := k5.2 (by omega)
      have e6 : t6 = 0 := k6.2 (by omega)
      have e7 : t7 = 0 := k7.2 (by omega)
      have e8 : t8 = 0 := k8.2 (by omega)
      have eq1 : q = 0 := hq2.2 (by omega)
      have ev1 : v = 0 := hv2.2 (by omega)
      clear k1 k2 k3 k4 k5 k6 k7 k8 hq2 hv2
      apply ite_eq_of <;> intro hA <;> omega
    · have e1 : t1 = 0 := k1.2 (by omega)
      have e2 : t2 = 0 := k2.2 (by omega)
      have e3 : t3 = 0 := k3.2 (by omega)
      have e4 : t4 = 0 := k4.2 (by omega)
      have e5 : t5 = 0 := k5.2 (by omega)
      have e6 : t6 = 0 := k6.2 (by omega)
      have e7 : t7 = 0 := k7.2 (by omega)
      have e8 : t8 = 0 := k8.2 (by omega)
      have eq1 : q = 0 := hq2.2 (by omega)
      have ev1 : v = 0 := hv2.2 (by omega)
      clear k1 k2 k3 k4 k5 k6 k7 k8 hq2 hv2
      apply ite_eq_of <;> intro hA <;> omega

lemma step_vertBlinker (rows cols r c : Nat)
    (hr1 : 1 ≤ r) (hr2 : r + 1 < rows) (hc1 : 1 ≤ c) (hc2 : c + 1 < cols) :
    step (vertBlinker rows cols r c) = horizBlinker rows cols r c := by
  unfold horizBlinker vertBlinker
  rw [step_buildGrid rows cols (vertInd r c) (vertInd_binary r c)]
  congr 1
  apply buildGrid_congr
  intro i hi j hj
  obtain ⟨s, hS⟩ : ∃ s : Int, nbrOf rows cols (vertInd r c) i j = s := ⟨_, rfl⟩
  obtain ⟨q, hq⟩ : ∃ q : Int, vertInd r c i j = q := ⟨_, rfl⟩
  obtain ⟨v, hv⟩ : ∃ v : Int, horizInd r c i j = v := ⟨_, rfl⟩
  rw [hS, hq, hv]
  simp only [nbrOf, vertInd, ite_indicator_merge] at hS
  simp only [vertInd] at hq
  simp only [horizInd] at hv
  obtain ⟨t1, t2, t3, t4, t5, t6, t7, t8, hsum, k1, k2, k3, k4, k5, k6, k7, k8⟩ :=
    ind_sum_char hS
  have hq2 := ite_char hq
  have hv2 := ite_char hv
  clear hS hq hv
  rcases (by omega : (i + 2 = r) ∨ (i + 1 = r) ∨ (i = r) ∨ (i = r + 1) ∨ (i = r + 2) ∨ (i + 2 < r ∨ r + 2 < i)) with hi1 | hi1 | hi1 | hi1 | hi1 | hi1
  · rcases (by omega : (j + 1 = c) ∨ (j = c) ∨ (j = c + 1) ∨ (j + 1 < c ∨ c + 1 < j)) with hj1 | hj1 | hj1 | hj1
    · have e1 : t1 = 0 := k1.2 (by omega)
      have e2 : t2 = 0 := k2.2 (by omega)
      have e3 : t3 = 0 := k3.2 (by omega)
      have e4 : t4 = 0 := k4.2 (by omega)
      have e5 : t5 = 1 := k5.1 (by omega)
      have e6 : t6 = 0 := k6.2 (by omega)
      have e7 : t7 = 0 := k7.2 (by omega)
      have e8 : t8 = 0 := k8.2 (by omega)
      have eq1 : q = 0 := hq2.2 (by omega)
      have ev1 : v = 0 := hv2.2 (by omega)
      clear k1 k2 k3 k4 k5 k6 k7 k8 hq2 hv2
      apply ite_eq_of <;> intro hA <;> omega
    · have e1 : t1 = 1 := k1.1 (by omega)
      have e2 : t2 = 0 := k2.2 (by omega)
      have e3 : t3 = 0 := k3.2 (by omega)
      have e4 : t4 = 0 := k4.2 (by omega)
      have e5 : t5 = 0 := k5.2 (by omega)
      have e6 : t6 = 0 := k6.2 (by omega)
      have e7 : t7 = 0 := k7.2 (by omega)
      have e8 : t8 = 0 := k8.2 (by omega)
      have eq1 : q = 0 := hq2.2 (by omega)
      have ev1 : v = 0 := hv2.2 (by omega)
      clear k1 k2 k3 k4 k5 k6 k7 k8 hq2 hv2
      apply ite_eq_of <;> intro hA <;> omega
    · have e1 : t1 = 0 := k1.2 (by omega)
      have e2 : t2 = 0 := k2.2 (by omega)
      have e3 : t3 = 0 := k3.2 (by omega)
      have e4 : t4 = 0 := k4.2 (by omega)
      have e5 : t5 = 0 := k5.2 (by omega)
      have e6 : t6 = 0 := k6.2 (by omega)
      have e7 : t7 = 1 := k7.1 (by omega)
      have e8 : t8 = 0 := k8.2 (by omega)
      have eq1 : q = 0 := hq2.2 (by omega)
      have ev1 : v = 0 := hv2.2 (by omega)
      clear k1 k2 k3 k4 k5 k6 k7 k8 hq2 hv2
      apply ite_eq_of <;> intro hA <;> omega
    · have e1 : t1 = 0 := k1.2 (by omega)
      have e2 : t2 = 0 := k2.2 (by omega)
      have e3 : t3 = 0 := k3.2 (by omega)
      have e4 : t4 = 0 := k4.2 (by omega)
      have e5 : t5 = 0 := k5.2 (by omega)
      have e6 : t6 = 0 := k6.2 (by omega)
      have e7 : t7 = 0 := k7.2 (by omega)
      have e8 : t8 = 0 := k8.2 (by omega)
      have eq1 : q = 0 := hq2.2 (by omega)
      have ev1 : v = 0 := hv2.2 (by omega)
      clear k1 k2 k3 k4 k5 k6 k7 k8 hq2 hv2
      apply ite_eq_of <;> intro hA <;> omega
  · rcases (by omega : (j + 1 = c) ∨ (j = c) ∨ (j = c + 1) ∨ (j + 1 < c ∨ c + 1 < j)) with hj1 | hj1 | hj1 | hj1
    · have e1 : t1 = 0 := k1.2 (by omega)
      have e2 : t2 = 0 := k2.2 (by omega)
      have e3 : t3 = 1 := k3.1 (by omega)
      have e4 : t4 = 0 := k4.2 (by omega)
      have e5 : t5 = 1 := k5.1 (by omega)
      have e6 : t6 = 0 := k6.2 (by omega)
      have e7 : t7 = 0 := k7.2 (by omega)
      have e8 : t8 = 0 := k8.2 (by omega)
      have eq1 : q = 0 := hq2.2 (by omega)
      have ev1 : v = 0 := hv2.2 (by omega)
      clear k1 k2 k3 k4 k5 k6 k7 k8 hq2 hv2
      apply ite_eq_of <;> intro hA <;> omega
    · have e1 : t1 = 1 := k1.1 (by omega)
      have e2 : t2 = 0 := k2.2 (by omega)
      have e3 : t3 = 0 := k3.2 (by omega)
      have e4 : t4 = 0 := k4.2 (by omega)
      have e5 : t5 = 0 := k5.2 (by omega)
      have e6 : t6 = 0 := k6.2 (by omega)
      have e7 : t7 = 0 := k7.2 (by omega)
      have e8 : t8 = 0 := k8.2 (by omega)
      have eq1 : q = 1 := hq2.1 (by omega)
      have ev1 : v = 0 := hv2.2 (by omega)
      clear k1 k2 k3 k4 k5 k6 k7 k8 hq2 hv2
      apply ite_eq_of <;> intro hA <;> omega
    · have e1 : t1 = 0 := k1.2 (by omega)
      have e2 : t2 = 0 := k2.2 (by omega)
      have e3 : t3 = 0 := k3.2 (by omega)
      have e4 : t4 = 1 := k4.1 (by omega)
      have e5 : t5 = 0 := k5.2 (by omega)
      have e6 : t6 = 0 := k6.2 (by omega)
      have e7 : t7 = 1 := k7.1 (by omega)
      have e8 : t8 = 0 := k8.2 (by omega)
      have eq1 : q = 0 := hq2.2 (by omega)
      have ev1 : v = 0 := hv2.2 (by omega)
      clear k1 k2 k3 k4 k5 k6 k7 k8 hq2 hv2
      apply ite_eq_of <;> intro hA <;> omega
    · have e1 : t1 = 0 := k1.2 (by omega)
      have e2 : t2 = 0 := k2.2 (by omega)
      have e3 : t3 = 0 := k3.2 (by omega)
      have e4 : t4 = 0 := k4.2 (by omega)
      have e5 : t5 = 0 := k5.2 (by omega)
      have e6 : t6 = 0 := k6.2 (by omega)
      have e7 : t7 = 0 := k7.2 (by omega)
      have e8 : t8 = 0 := k8.2 (by omega)
      have eq1 : q = 0 := hq2.2 (by omega)
      have ev1 : v = 0 := hv2.2 (by omega)
      clear k1 k2 k3 k4 k5 k6 k7 k8 hq2 hv2
      apply ite_eq_of <;> intro hA <;> omega
  · rcases (by omega : (j + 1 = c) ∨ (j = c) ∨ (j = c + 1) ∨ (j + 1 < c ∨ c + 1 < j)) with hj1 | hj1 | hj1 | hj1
    · have e1 : t1 = 0 := k1.2 (by omega)
      have e2 : t2 = 0 := k2.2 (by omega)
      have e3 : t3 = 1 := k3.1 (by omega)
      have e4 : t4 = 0 := k4.2 (by omega)
      have e5 : t5 = 1 := k5.1 (by omega)
      have e6 : t6 = 0 := k6.2 (by omega)
      have e7 : t7 = 0 := k7.2 (by omega)
      have e8 : t8 = 1 := k8.1 (by omega)
      have eq1 : q = 0 := hq2.2 (by omega)
      have ev1 : v = 1 := hv2.1 (by omega)
      clear k1 k2 k3 k4 k5 k6 k7 k8 hq2 hv2
      apply ite_eq_of <;> intro hA <;> omega
    · have e1 : t1 = 1 := k1.1 (by omega)
      have e2 : t2 = 1 := k2.1 (by omega)
      have e3 : t3 = 0 := k3.2 (by omega)
      have e4 : t4 = 0 := k4.2 (by omega)
      have e5 : t5 = 0 := k5.2 (by omega)
      have e6 : t6 = 0 := k6.2 (by omega)
      have e7 : t7 = 0 := k7.2 (by omega)
      have e8 : t8 = 0 := k8.2 (by omega)
      have eq1 : q = 1 := hq2.1 (by omega)
      have ev1 : v = 1 := hv2.1 (by omega)
      clear k1 k2 k3 k4 k5 k6 k7 k8 hq2 hv2
      apply ite_eq_of <;> intro hA <;> omega
    · have e1 : t1 = 0 := k1.2 (by omega)
      have e2 : t2 = 0 := k2.2 (by omega)
      have e3 : t3 = 0 := k3.2 (by omega)
      have e4 : t4 = 1 := k4.1 (by omega)
      have e5 : t5 = 0 := k5.2 (by omega)
      have e6 : t6 = 1 := k6.1 (by omega)
      have e7 : t7 = 1 := k7.1 (by omega)
      have e8 : t8 = 0 := k8.2 (by omega)
      have eq1 : q = 0 := hq2.2 (by omega)
      have ev1 : v = 1 := hv2.1 (by omega)
      clear k1 k2 k3 k4 k5 k6 k7 k8 hq2 hv2
      apply ite_eq_of <;> intro hA <;> omega
    · have e1 : t1 = 0 := k1.2 (by omega)
      have e2 : t2 = 0 := k2.2 (by omega)
      have e3 : t3 = 0 := k3.2 (by omega)
      have e4 : t4 = 0 := k4.2 (by omega)
      have e5 : t5 = 0 := k5.2 (by omega)
      have e6 : t6 = 0 := k6.2 (by omega)
      have e7 : t7 = 0 := k7.2 (by omega)
      have e8 : t8 = 0 := k8.2 (by omega)
      have eq1 : q = 0 := hq2.2 (by omega)
      have ev1 : v = 0 := hv2.2 (by omega)
      clear k1 k2 k3 k4 k5 k6 k7 k8 hq2 hv2
      apply ite_eq_of <;> intro hA <;> omega
  · rcases (by omega : (j + 1 = c) ∨ (j = c) ∨ (j = c + 1) ∨ (j + 1 < c ∨ c + 1 < j)) with hj1 | hj1 | hj1 | hj1
    · have e1 : t1 = 0 := k1.2 (by omega)
      have e2 : t2 = 0 := k2.2 (by omega)
      have e3 : t3 = 1 := k3.1 (by omega)
      have e4 : t4 = 0 := k4.2 (by omega)
      have e5 : t5 = 0 := k5.2 (by omega)
      have e6 : t6 = 0 := k6.2 (by omega)
      have e7 : t7 = 0 := k7.2 (by omega)
      have e8 : t8 = 1 := k8.1 (by omega)
      have eq1 : q = 0 := hq2.2 (by omega)
      have ev1 : v = 0 := hv2.2 (by omega)
      clear k1 k2 k3 k4 k5 k6 k7 k8 hq2 hv2
      apply ite_eq_of <;> intro hA <;> omega
    · have e1 : t1 = 0 := k1.2 (by omega)
      have e2 : t2 = 1 := k2.1 (by omega)
      have e3 : t3 = 0 := k3.2 (by omega)
      have e4 : t4 = 0 := k4.2 (by omega)
      have e5 : t5 = 0 := k5.2 (by omega)
      have e6 : t6 = 0 := k6.2 (by omega)
      have e7 : t7 = 0 := k7.2 (by omega)
      have e8 : t8 = 0 := k8.2 (by omega)
      have eq1 : q = 1 := hq2.1 (by omega)
      have ev1 : v = 0 := hv2.2 (by omega)
      clear k1 k2 k3 k4 k5 k6 k7 k8 hq2 hv2
      apply ite_eq_of <;> intro hA <;> omega
    · have e1 : t1 = 0 := k1.2 (by omega)
      have e2 : t2 = 0 := k2.2 (by omega)
      have e3 : t3 = 0 := k3.2 (by omega)
      have e4 : t4 = 1 := k4.1 (by omega)
      have e5 : t5 = 0 := k5.2 (by omega)
      have e6 : t6 = 1 := k6.1 (by omega)
      have e7 : t7 = 0 := k7.2 (by omega)
      have e8 : t8 = 0 := k8.2 (by omega)
      have eq1 : q = 0 := hq2.2 (by omega)
      have ev1 : v = 0 := hv2.2 (by omega)
      clear k1 k2 k3 k4 k5 k6 k7 k8 hq2 hv2
      apply ite_eq_of <;> intro hA <;> omega
    · have e1 : t1 = 0 := k1.2 (by omega)
      have e2 : t2 = 0 := k2.2 (by omega)
      have e3 : t3 = 0 := k3.2 (by omega)
      have e4 : t4 = 0 := k4.2 (by omega)
      have e5 : t5 = 0 := k5.2 (by omega)
      have e6 : t6 = 0 := k6.2 (by omega)
      have e7 : t7 = 0 := k7.2 (by omega)
      have e8 : t8 = 0 := k8.2 (by omega)
      have eq1 : q = 0 := hq2.2 (by omega)
      have ev1 : v = 0 := hv2.2 (by omega)
      clear k1 k2 k3 k4 k5 k6 k7 k8 hq2 hv2
      apply ite_eq_of <;> intro hA <;> omega
  · rcases (by omega : (j + 1 = c) ∨ (j = c) ∨ (j = c + 1) ∨ (j + 1 < c ∨ c + 1 < j)) with hj1 | hj1 | hj1 | hj1
    · have e1 : t1 = 0 := k1.2 (by omega)
      have e2 : t2 = 0 := k2.2 (by omega)
      have e3 : t3 = 0 := k3.2 (by omega)
      have e4 : t4 = 0 := k4.2 (by omega)
      have e5 : t5 = 0 := k5.2 (by omega)
      have e6 : t6 = 0 := k6.2 (by omega)
      have e7 : t7 = 0 := k7.2 (by omega)
      have e8 : t8 = 1 := k8.1 (by omega)
      have eq1 : q = 0 := hq2.2 (by omega)
      have ev1 : v = 0 := hv2.2 (by omega)
      clear k1 k2 k3 k4 k5 k6 k7 k8 hq2 hv2
      apply ite_eq_of <;> intro hA <;> omega
    · have e1 : t1 = 0 := k1.2 (by omega)
      have e2 : t2 = 1 := k2.1 (by omega)
      have e3 : t3 = 0 := k3.2 (by omega)
      have e4 : t4 = 0 := k4.2 (by omega)
      have e5 : t5 = 0 := k5.2 (by omega)
      have e6 : t6 = 0 := k6.2 (by omega)
      have e7 : t7 = 0 := k7.2 (by omega)
      have e8 : t8 = 0 := k8.2 (by omega)
      have eq1 : q = 0 := hq2.2 (by omega)
      have ev1 : v = 0 := hv2.2 (by omega)
      clear k1 k2 k3 k4 k5 k6 k7 k8 hq2 hv2
      apply ite_eq_of <;> intro hA <;> omega
    · have e1 : t1 = 0 := k1.2 (by omega)
      have e2 : t2 = 0 := k2.2 (by omega)
      have e3 : t3 = 0 := k3.2 (by omega)
      have e4 : t4 = 0 := k4.2 (by omega)
      have e5 : t5 = 0 := k5.2 (by omega)
      have e6 : t6 = 1 := k6.1 (by omega)
      have e7 : t7 = 0 := k7.2 (by omega)
      have e8 : t8 = 0 := k8.2 (by omega)
      have eq1 : q = 0 := hq2.2 (by omega)
      have ev1 : v = 0 := hv2.2 (by omega)
      clear k1 k2 k3 k4 k5 k6 k7 k8 hq2 hv2
      apply ite_eq_of <;> intro hA <;> omega
    · have e1 : t1 = 0 := k1.2 (by omega)
      have e2 : t2 = 0 := k2.2 (by omega)
      have e3 : t3 = 0 := k3.2 (by omega)
      have e4 : t4 = 0 := k4.2 (by omega)
      have e5 : t5 = 0 := k5.2 (by omega)
      have e6 : t6 = 0 := k6.2 (by omega)
      have e7 : t7 = 0 := k7.2 (by omega)
      have e8 : t8 = 0 := k8.2 (by omega)
      have eq1 : q = 0 := hq2.2 (by omega)
      have ev1 : v = 0 := hv2.2 (by omega)
      clear k1 k2 k3 k4 k5 k6 k7 k8 hq2 hv2
      apply ite_eq_of <;> intro hA <;> omega
  · rcases (by omega : (j + 1 = c) ∨ (j = c) ∨ (j = c + 1) ∨ (j + 1 < c ∨ c + 1 < j)) with hj1 | hj1 | hj1 | hj1
    · have e1 : t1 = 0 := k1.2 (by omega)
      have e2 : t2 = 0 := k2.2 (by omega)
      have e3 : t3 = 0 := k3.2 (by omega)
      have e4 : t4 = 0 := k4.2 (by omega)
      have e5 : t5 = 0 := k5.2 (by omega)
      have e6 : t6 = 0 := k6.2 (by omega)
      have e7 : t7 = 0 := k7.2 (by omega)
      have e8 : t8 = 0 := k8.2 (by omega)
      have eq1 : q = 0 := hq2.2 (by omega)
      have ev1 : v = 0 := hv2.2 (by omega)
      clear k1 k2 k3 k4 k5 k6 k7 k8 hq2 hv2
      apply ite_eq_of <;> intro hA <;> omega
    · have e1 : t1 = 0 := k1.2 (by omega)
      have e2 : t2 = 0 := k2.2 (by omega)
      have e3 : t3 = 0 := k3.2 (by omega)
      have e4 : t4 = 0 := k4.2 (by omega)
      have e5 : t5 = 0 := k5.2 (by omega)
      have e6 : t6 = 0 := k6.2 (by omega)
      have e7 : t7 = 0 := k7.2 (by omega)
      have e8 : t8 = 0 := k8.2 (by omega)
      have eq1 : q = 0 := hq2.2 (by omega)
      have ev1 : v = 0 := hv2.2 (by omega)
      clear k1 k2 k3 k4 k5 k6 k7 k8 hq2 hv2
      apply ite_eq_of <;> intro hA <;> omega
    · have e1 : t1 = 0 := k1.2 (by omega)
      have e2 : t2 = 0 := k2.2 (by omega)
      have e3 : t3 = 0 := k3.2 (by omega)
      have e4 : t4 = 0 := k4.2 (by omega)
      have e5 : t5 = 0 := k5.2 (by omega)
      have e6 : t6 = 0 := k6.2 (by omega)
      have e7 : t7 = 0 := k7.2 (by omega)
      have e8 : t8 = 0 := k8.2 (by omega)
      have eq1 : q = 0 := hq2.2 (by omega)
      have ev1 : v = 0 := hv2.2 (by omega)
      clear k1 k2 k3 k4 k5 k6 k7 k8 hq2 hv2
      apply ite_eq_of <;> intro hA <;> omega
    · have e1 : t1 = 0 := k1.2 (by omega)
      have e2 : t2 = 0 := k2.2 (by omega)
      have e3 : t3 = 0 := k3.2 (by omega)
      have e4 : t4 = 0 := k4.2 (by omega)
      have e5 : t5 = 0 := k5.2 (by omega)
      have e6 : t6 = 0 := k6.2 (by omega)
      have e7 : t7 = 0 := k7.2 (by omega)
      have e8 : t8 = 0 := k8.2 (by omega)
      have eq1 : q = 0 := hq2.2 (by omega)
      have ev1 : v = 0 := hv2.2 (by omega)
      clear k1 k2 k3 k4 k5 k6 k7 k8 hq2 hv2
      apply ite_eq_of <;> intro hA <;> omega

/-- C8: a horizontal 3-cell blinker at row r, columns c-1..c+1 (one cell away
from every border) becomes the vertical blinker at column c, rows r-1..r+1
after one step, and the original horizontal grid is restored by a second
step. -/
theorem claim8_blinker (rows cols r c : Nat)
    (hr1 : 1 ≤ r) (hr2 : r + 1 < rows) (hc1 : 1 ≤ c) (hc2 : c + 1 < cols) :
    step (horizBlinker rows cols r c) = vertBlinker rows cols r c ∧
    step (step (horizBlinker rows cols r c)) = horizBlinker rows cols r c := by
  refine ⟨step_horizBlinker rows cols r c hr1 hr2 hc1 hc2, ?_⟩
  rw [step_horizBlinker rows cols r c hr1 hr2 hc1 hc2]
  exact step_vertBlinker rows cols r c hr1 hr2 hc1 hc2

theorem claim8_blinker_witness :
    1 ≤ 1 ∧ 1 + 1 < 3 ∧
    (step (horizBlinker 3 3 1 1) = vertBlinker 3 3 1 1 ∧
     step (step (horizBlinker 3 3 1 1)) = horizBlinker 3 3 1 1) :=
  ⟨by decide, by decide,
   claim8_blinker 3 3 1 1 (by decide) (by decide) (by decide) (by decide)⟩

/-!
A small store model for the aliasing claim: numpy arrays live in a store of
allocated 2-d arrays addressed by index; the engine holds a reference to its
grid array.  In the source, set_cell and clear mutate the referenced array in
place, while step and a successful load bind self.grid to a freshly created
array; get_grid_copy allocates a copy of the current array and hands out the
new reference.
-/

/-- The store of allocated 2-d arrays. -/
abbrev Store : Type := List (List (List Int))

/-- Engine state holding a reference into the store instead of the array. -/
structure REngine where
  rows : Nat
  cols : Nat
  gridRef : Nat
  deriving Repr, DecidableEq

/-- Read the array a reference points to. -/
def deref (h : Store) (ref : Nat) : List (List Int) := h.getD ref []

/-- set_cell through the reference: an in-place write into the referenced
array (same guard and write as setCell). -/
def setCellRef (h : Store) (e : REngine) (row col state : Int) : Store :=
  if 0 ≤ row ∧ row < (e.rows : Int) ∧ 0 ≤ col ∧ col < (e.cols : Int) then
    h.set e.gridRef ((deref h e.gridRef).set row.toNat
      (((deref h e.gridRef).getD row.toNat []).set col.toNat (i8 state)))
  else h

/-- clear through the reference: grid.fill(0) mutates the array in place. -/
def clearRef (h : Store) (e : REngine) : Store :=
  h.set e.gridRef ((deref h e.gridRef).map (fun row => row.map (fun _ => 0)))

/-- step through the reference: the new generation is a freshly allocated
array and self.grid is rebound to it; the old array is not written. -/
def stepRef (h : Store) (e : REngine) : Store × REngine :=
  (h ++ [(step ⟨e.rows, e.cols, deref h e.gridRef⟩).grid],
   { e with gridRef := h.length })

/-- load through the reference: on success self.grid is rebound to the
freshly parsed array; on failure nothing is written. -/
def loadRef (h : Store) (e : REngine) (content : List Char) :
    Store × REngine × Option LoadError :=
  match loadLines (linesOf content) with
  | .error err => (h, e, some err)
  | .ok (n, g) => (h ++ [g], ⟨n, n, h.length⟩, none)

/-- get_grid_copy: self.grid.copy() allocates a fresh array with the current
contents and returns the new reference. -/
def copyRef (h : Store) (e : REngine) : Store × Nat :=
  (h ++ [deref h e.gridRef], h.length)

/-- An in-place write into an arbitrary referenced array — what a consumer
mutating a returned copy does. -/
def writeRef (h : Store) (ref : Nat) (row col v : Int) : Store :=
  h.set ref ((deref h ref).set row.toNat
    (((deref h ref).getD row.toNat []).set col.toNat v))

lemma getD_set_ne_any {α : Type} (l : List α) {i j : Nat} (x d : α) (h : i ≠ j) :
    (l.set i x).getD j d = l.getD j d := by
  rw [List.getD_eq_getElem?_getD, List.getD_eq_getElem?_getD, List.getElem?_set_ne h]

lemma deref_set_ne (h : Store) {i j : Nat} (a : List (List Int)) (hij : i ≠ j) :
    deref (h.set i a) j = deref h j :=
  getD_set_ne_any h a [] hij

lemma deref_append_left (h : Store) (tl : Store) {ref : Nat} (href : ref < h.length) :
    deref (h ++ tl) ref = deref h ref := by
  unfold deref
  rw [List.getD_eq_getElem?_getD, List.getD_eq_getElem?_getD,
    List.getElem?_append_left href]

lemma deref_append_self (h : Store) (a : List (List Int)) :
    deref (h ++ [a]) h.length = a := by
  unfold deref
  rw [List.getD_eq_getElem?_getD, List.getElem?_append_right (Nat.le_refl _)]
  simp

/-- C9: a snapshot taken via get_grid_copy is value-independent of the live
grid: it holds the grid contents at the time of the call, later set_cell,
clear, step and load calls of the engine change nothing in it, and writing
into the snapshot array changes nothing in the live grid. -/
theorem claim9_snapshot_independence (h : Store) (e : REngine)
    (href : e.gridRef < h.length) :
    deref (copyRef h e).1 (copyRef h e).2 = deref h e.gridRef ∧
    (∀ row col state,
      deref (setCellRef (copyRef h e).1 e row col state) (copyRef h e).2 =
        deref (copyRef h e).1 (copyRef h e).2) ∧
    (deref (clearRef (copyRef h e).1 e) (copyRef h e).2 =
      deref (copyRef h e).1 (copyRef h e).2) ∧
    (deref (stepRef (copyRef h e).1 e).1 (copyRef h e).2 =
      deref (copyRef h e).1 (copyRef h e).2) ∧
    (∀ content,
      deref (loadRef (copyRef h e).1 e content).1 (copyRef h e).2 =
        deref (copyRef h e).1 (copyRef h e).2) ∧
    (∀ row col v,
      deref (writeRef (copyRef h e).1 (copyRef h e).2 row col v) e.gridRef =
        deref (copyRef h e).1 e.gridRef) := by
  have hne : e.gridRef ≠ h.length := by omega
  have hsn : (copyRef h e).2 = h.length := rfl
  have hlen1 : ((copyRef h e).1).length = h.length + 1 := by
    show (h ++ [deref h e.gridRef]).length = h.length + 1
    simp
  refine ⟨?_, ?_, ?_, ?_, ?_, ?_⟩
  · exact deref_append_self h (deref h e.gridRef)
  · intro row col state
    unfold setCellRef
    split
    · exact deref_set_ne _ _ hne
    · rfl
  · exact deref_set_ne _ _ hne
  · show deref ((copyRef h e).1 ++ _) h.length = deref (copyRef h e).1 h.length
    exact deref_append_left _ _ (by omega)
  · intro content
    show deref (loadRef (copyRef h e).1 e content).1 h.length = _
    unfold loadRef
    cases loadLines (linesOf content) with
    | error err => rfl
    | ok v =>
      show deref ((copyRef h e).1 ++ [v.2]) h.length = _
      exact deref_append_left _ _ (by omega)
  · intro row col v
    unfold writeRef
    exact deref_set_ne _ _ (by omega)

/-- test store for the snapshot claim: one allocated 2 x 2 array. -/
def sampleStore : Store := [[[0, 1], [1, 0]]]

theorem claim9_snapshot_independence_witness :
    (REngine.mk 2 2 0).gridRef < sampleStore.length ∧
    (deref (copyRef sampleStore (REngine.mk 2 2 0)).1
        (copyRef sampleStore (REngine.mk 2 2 0)).2 =
      deref sampleStore 0 ∧
     deref (setCellRef (copyRef sampleStore (REngine.mk 2 2 0)).1
        (REngine.mk 2 2 0) 0 0 1) (copyRef sampleStore (REngine.mk 2 2 0)).2 =
      deref (copyRef sampleStore (REngine.mk 2 2 0)).1
        (copyRef sampleStore (REngine.mk 2 2 0)).2 ∧
     deref (writeRef (copyRef sampleStore (REngine.mk 2 2 0)).1
        (copyRef sampleStore (REngine.mk 2 2 0)).2 0 0 5) 0 =
      deref (copyRef sampleStore (REngine.mk 2 2 0)).1 0) := by
  have h := claim9_snapshot_independence sampleStore (REngine.mk 2 2 0) (by decide)
  exact ⟨by decide, h.1, h.2.1 0 0 1, h.2.2.2.2.2 0 0 5⟩

end GameOfLife
